import Mathlib

/-!
Verification model of the event-analytics service layer
(`app/services/user_service.py`, `app/services/event_service.py`,
`app/services/email_service.py`).

The DynamoDB table is modelled as a list of items in scan order; an item is an
association list of attribute names to values.  A `scan` with `Limit = L`
evaluates the next `L` items from the cursor position and applies the server
`FilterExpression` afterwards; it reports a `LastEvaluatedKey` (modelled as the
numeric position among evaluated items) exactly when items remain beyond the
evaluated window.  A GSI `query` is modelled as reading, in stored order, the
items carrying the index partition-key attribute.  Continuation tokens are a
reversible string serialization of that cursor (the source uses
base64-encoded JSON; any decode failure is caught and treated as "no token").
-/

/-- Attribute values stored in an item: strings, numbers, and the explicit
null marker used by the analytics response normalizer. -/
inductive AttrVal where
  | s (v : String)
  | n (v : Int)
  | nullV
deriving DecidableEq, Repr

/-- An item (row) is an association list from attribute names to values. -/
abbrev AttrMap := List (String × AttrVal)

/-- Look up an attribute by name (first binding wins), like `dict.get`. -/
def getAttr (m : AttrMap) (k : String) : Option AttrVal :=
  (m.find? (fun e => e.1 == k)).map (fun e => e.2)

/-- Set an attribute: replace the existing binding or append a new one. -/
def setAttr : AttrMap → String → AttrVal → AttrMap
  | [], k, v => [(k, v)]
  | e :: es, k, v => if e.1 = k then (k, v) :: es else e :: setAttr es k v

/-- Read a string attribute. -/
def getS (m : AttrMap) (k : String) : Option String :=
  match getAttr m k with
  | some (AttrVal.s v) => some v
  | _ => none

/-- Read a string attribute with a default. -/
def getSD (m : AttrMap) (k : String) (d : String) : String :=
  (getS m k).getD d

/-- Read a numeric attribute with a default, like `item.get(k, d)`. -/
def getNumD (m : AttrMap) (k : String) (d : Int) : Int :=
  match getAttr m k with
  | some (AttrVal.n v) => v
  | _ => d

/-- Decimal digit to character. -/
def digitChar : Nat → Char
  | 0 => '0' | 1 => '1' | 2 => '2' | 3 => '3' | 4 => '4'
  | 5 => '5' | 6 => '6' | 7 => '7' | 8 => '8' | 9 => '9'
  | _ => '*'

/-- Character to decimal digit, `none` on a non-digit. -/
def charVal (c : Char) : Option Nat :=
  if 48 ≤ c.toNat ∧ c.toNat ≤ 57 then some (c.toNat - 48) else none

/-- Decimal rendering of a natural number (big-endian digits). -/
def numRepr (n : Nat) : String :=
  if n = 0 then "0" else String.mk (((Nat.digits 10 n).reverse).map digitChar)

/-- Encode a store cursor as an opaque continuation-token string.  The source
serializes the store's `LastEvaluatedKey` as base64-encoded JSON; the model
serializes the cursor position in decimal, which is likewise reversible. -/
def encodeToken (k : Nat) : String :=
  numRepr k

/-- Parse every character as a decimal digit, `none` on the first failure. -/
def charsToDigits : List Char → Option (List Nat)
  | [] => some []
  | c :: cs =>
      match charVal c, charsToDigits cs with
      | some d, some ds => some (d :: ds)
      | _, _ => none

/-- Decode a continuation token, `none` on any failure (the source catches
every decode error: bad base64, bad UTF-8, and bad JSON all raise subclasses
of `ValueError`, which the `except` clause swallows). -/
def decodeToken (s : String) : Option Nat :=
  match charsToDigits s.data with
  | some ds => if ds = [] then none else some (Nat.ofDigits 10 ds.reverse)
  | none => none

/-- Parse an optional incoming token; a missing or malformed token yields no
start key (restart from the first page). -/
def parseStartKey : Option String → Option Nat
  | none => none
  | some s => decodeToken s

/-- A run of `k` zero characters. -/
def zeroRun (k : Nat) : String :=
  String.mk (List.replicate k '0')

/-- Python `f-string` zero-padded decimal format of width 10 (`{v:010d}`):
the sign plus digits are left-padded with zeros to a total width of 10. -/
def pad10 (v : Int) : String :=
  if v < 0 then "-" ++ zeroRun (9 - (numRepr v.natAbs).length) ++ numRepr v.natAbs
  else zeroRun (10 - (numRepr v.natAbs).length) ++ numRepr v.natAbs

/-- A numeric range filter (`{"min": .., "max": ..}` with optional keys). -/
structure CountRange where
  min : Option Int
  max : Option Int
deriving DecidableEq, Repr

/-- The user filter dictionary: a key is "present" when the field is `some`.
City and state are the only keys read jointly. -/
structure Filters where
  company : Option String := none
  jobTitle : Option String := none
  city : Option String := none
  state : Option String := none
  hostedEventCount : Option CountRange := none
  attendedEventCount : Option CountRange := none
deriving DecidableEq, Repr

/-- Range check from `_matches_all_filters`: fail when the count is below the
given `min` or above the given `max`. -/
def rangeOk (count : Int) (r : CountRange) : Bool :=
  (match r.min with
   | some m => decide (m ≤ count)
   | none => true) &&
  (match r.max with
   | some m => decide (count ≤ m)
   | none => true)

/-- `UserService._matches_all_filters`: an item passes when every recognized
filter present in the dictionary holds; city/state are only checked when both
are present, and a missing count attribute defaults to 0. -/
def matchesAllFilters (item : AttrMap) (f : Filters) : Bool :=
  (match f.company with
   | some c => getAttr item "company" == some (AttrVal.s c)
   | none => true) &&
  (match f.jobTitle with
   | some j => getAttr item "jobTitle" == some (AttrVal.s j)
   | none => true) &&
  (match f.city, f.state with
   | some c, some st =>
       getAttr item "city" == some (AttrVal.s c) &&
       getAttr item "state" == some (AttrVal.s st)
   | _, _ => true) &&
  (match f.hostedEventCount with
   | some r => rangeOk (getNumD item "hostedEventCount" 0) r
   | none => true) &&
  (match f.attendedEventCount with
   | some r => rangeOk (getNumD item "attendedEventCount" 0) r
   | none => true)

/-- The five recognized filter kinds. -/
inductive FType where
  | company
  | jobTitle
  | location
  | hostedEventCount
  | attendedEventCount
deriving DecidableEq, Repr

/-- `self.index_selectivity`, scaled by 100 to stay in `Nat` (0.05 becomes 5,
and so on); only the order of these values matters to the selector. -/
def indexSelectivity : FType → Nat
  | FType.location => 5
  | FType.company => 10
  | FType.jobTitle => 20
  | FType.hostedEventCount => 80
  | FType.attendedEventCount => 80

/-- One entry of `available_filters` in `_choose_best_strategy`. -/
structure FilterChoice where
  ftype : FType
  selectivity : Nat
  indexName : String
  pk : String
  pkAttr : String
deriving DecidableEq, Repr

/-- `available_filters`, built in the source's order of `if` blocks:
company, jobTitle, location (city and state jointly), hostedEventCount,
attendedEventCount. -/
def availableFilters (f : Filters) : List FilterChoice :=
  (match f.company with
   | some c =>
       [⟨FType.company, indexSelectivity FType.company, "GSI_ByCompany",
         "COMPANY#" ++ c, "GSI_ByCompany_PK"⟩]
   | none => []) ++
  (match f.jobTitle with
   | some j =>
       [⟨FType.jobTitle, indexSelectivity FType.jobTitle, "GSI_ByJobTitle",
         "JOBTITLE#" ++ j, "GSI_ByJobTitle_PK"⟩]
   | none => []) ++
  (match f.city, f.state with
   | some c, some st =>
       [⟨FType.location, indexSelectivity FType.location, "GSI_ByLocation",
         "LOCATION#" ++ st ++ "#" ++ c, "GSI_ByLocation_PK"⟩]
   | _, _ => []) ++
  (match f.hostedEventCount with
   | some _ =>
       [⟨FType.hostedEventCount, indexSelectivity FType.hostedEventCount,
         "GSI_UsersByHostedCount", "USER_PROFILE", "GSI_UsersByHostedCount_PK"⟩]
   | none => []) ++
  (match f.attendedEventCount with
   | some _ =>
       [⟨FType.attendedEventCount, indexSelectivity FType.attendedEventCount,
         "GSI_UsersByAttendedCount", "USER_PROFILE", "GSI_UsersByAttendedCount_PK"⟩]
   | none => [])

/-- Python `min(xs, key=lambda x: x.selectivity)`: the first element attaining
the minimal key, `none` on an empty list. -/
def minBySelectivity (l : List FilterChoice) : Option FilterChoice :=
  l.foldl
    (fun acc x =>
      match acc with
      | none => some x
      | some b => if x.selectivity < b.selectivity then some x else acc)
    none

/-- The strategy returned by `_choose_best_strategy`. -/
inductive Strategy where
  | gsiQuery (primary : FilterChoice) (secondary : List FilterChoice)
  | scan
deriving DecidableEq, Repr

/-- `UserService._choose_best_strategy`: pick the most selective available
index as primary and keep the rest as residual (secondary) filters; with no
available index, fall back to a scan. -/
def chooseBestStrategy (f : Filters) : Strategy :=
  let av := availableFilters f
  match minBySelectivity av with
  | some best => Strategy.gsiQuery best (av.filter (fun x => x ≠ best))
  | none => Strategy.scan

/-- Spec-side definition (for refinement comparison): the spec declares the
tie-break order "location, company, jobTitle, hostedCount, attendedCount",
so the available filters are listed in that declared order before taking the
first one with minimal selectivity. -/
def specOrderAvailableFilters (f : Filters) : List FilterChoice :=
  (match f.city, f.state with
   | some c, some st =>
       [⟨FType.location, indexSelectivity FType.location, "GSI_ByLocation",
         "LOCATION#" ++ st ++ "#" ++ c, "GSI_ByLocation_PK"⟩]
   | _, _ => []) ++
  (match f.company with
   | some c =>
       [⟨FType.company, indexSelectivity FType.company, "GSI_ByCompany",
         "COMPANY#" ++ c, "GSI_ByCompany_PK"⟩]
   | none => []) ++
  (match f.jobTitle with
   | some j =>
       [⟨FType.jobTitle, indexSelectivity FType.jobTitle, "GSI_ByJobTitle",
         "JOBTITLE#" ++ j, "GSI_ByJobTitle_PK"⟩]
   | none => []) ++
  (match f.hostedEventCount with
   | some _ =>
       [⟨FType.hostedEventCount, indexSelectivity FType.hostedEventCount,
         "GSI_UsersByHostedCount", "USER_PROFILE", "GSI_UsersByHostedCount_PK"⟩]
   | none => []) ++
  (match f.attendedEventCount with
   | some _ =>
       [⟨FType.attendedEventCount, indexSelectivity FType.attendedEventCount,
         "GSI_UsersByAttendedCount", "USER_PROFILE", "GSI_UsersByAttendedCount_PK"⟩]
   | none => [])

/-- Spec-side primary choice: minimal selectivity, ties broken by the spec's
declared order. -/
def specPrimaryType (f : Filters) : Option FType :=
  (minBySelectivity (specOrderAvailableFilters f)).map (fun c => c.ftype)

/-- The recognized filter kinds present in a filter set, in source order. -/
def availableTypes (f : Filters) : List FType :=
  (availableFilters f).map (fun c => c.ftype)

/-- The in-batch accumulation loop shared by `_query_with_pagination` and
`_scan_with_pagination`: walk the returned batch in order, append each item
passing `_matches_all_filters`, and break out as soon as the page is full
(remaining batch items are discarded). -/
def appendMatches (f : Filters) (limit : Nat) :
    List AttrMap → List AttrMap → List AttrMap
  | users, [] => users
  | users, i :: rest =>
      if matchesAllFilters i f then
        if limit ≤ (users ++ [i]).length then users ++ [i]
        else appendMatches f limit (users ++ [i]) rest
      else appendMatches f limit users rest

/-- Server-side filter of the user scan: `Attr("SK").eq("PROFILE")`. -/
def scanServerFilter (r : AttrMap) : Bool :=
  getAttr r "SK" == some (AttrVal.s "PROFILE")

/-- The bounded-rescan pagination loop shared by `_query_with_pagination`
(`serverF` trivial, over-fetch multiplier 3 over the index source) and
`_scan_with_pagination` (`serverF` keeps `SK = PROFILE` rows, multiplier 5
over the whole table).  Each round evaluates the next
`min(needed * mult, 100)` items of `src`, keeps those passing `serverF`,
feeds them to `appendMatches`, and continues from the store's own cursor
until the page is full or the data is exhausted. -/
def paginationLoop (src : List AttrMap) (serverF : AttrMap → Bool) (mult : Nat)
    (f : Filters) (limit : Nat) :
    Nat → List AttrMap → Option Nat → List AttrMap × Option Nat
  | 0, users, cursor => (users, cursor)
  | fuel + 1, users, cursor =>
      if users.length < limit then
        -- evaluate the next min(needed * mult, 100) items from the cursor
        -- position, keep those passing the server filter, accumulate matches;
        -- when the store reports a cursor, loop from it, otherwise stop
        if cursor.getD 0 + min ((limit - users.length) * mult) 100 < src.length then
          paginationLoop src serverF mult f limit fuel
            (appendMatches f limit users
              (((src.drop (cursor.getD 0)).take
                (min ((limit - users.length) * mult) 100)).filter serverF))
            (some (cursor.getD 0 + min ((limit - users.length) * mult) 100))
        else
          (appendMatches f limit users
            (((src.drop (cursor.getD 0)).take
              (min ((limit - users.length) * mult) 100)).filter serverF), none)
      else (users, cursor)

/-- The rows served by a GSI partition-key query: the items carrying the
index partition-key attribute with the requested value, in index order
(modelled as stored order). -/
def gsiSource (t : List AttrMap) (prim : FilterChoice) : List AttrMap :=
  t.filter (fun r => getAttr r prim.pkAttr == some (AttrVal.s prim.pk))

/-- Does the attribute name start with `GSI_` (`k.startswith("GSI_")`). -/
def startsWithGSI (k : String) : Bool :=
  match k.data with
  | 'G' :: 'S' :: 'I' :: '_' :: _ => true
  | _ => false

/-- `_clean_dynamodb_fields`: drop `PK`, `SK` and every `GSI_`-prefixed
attribute. -/
def cleanDynamoFields (item : AttrMap) : AttrMap :=
  item.filter (fun e => !(e.1 == "PK" || e.1 == "SK" || startsWithGSI e.1))

/-- Emit the next continuation token: only when the loop stopped with the
page exactly full and the store still reported a cursor. -/
def nextTokenOf (users : List AttrMap) (limit : Nat) : Option Nat → Option String
  | some k => if users.length = limit then some (encodeToken k) else none
  | none => none

/-- `UserService._query_with_pagination` for the chosen primary index. -/
def queryWithPagination (t : List AttrMap) (prim : FilterChoice) (f : Filters)
    (limit : Nat) (lastEvaluatedKey : Option String) :
    List AttrMap × Option String :=
  let src := gsiSource t prim
  let startKey := parseStartKey lastEvaluatedKey
  let res := paginationLoop src (fun _ => true) 3 f limit (src.length + 1) [] startKey
  (res.1.map cleanDynamoFields, nextTokenOf res.1 limit res.2)

/-- `UserService._scan_with_pagination`. -/
def scanWithPagination (t : List AttrMap) (f : Filters) (limit : Nat)
    (lastEvaluatedKey : Option String) : List AttrMap × Option String :=
  let startKey := parseStartKey lastEvaluatedKey
  let res := paginationLoop t scanServerFilter 5 f limit (t.length + 1) [] startKey
  (res.1.map cleanDynamoFields, nextTokenOf res.1 limit res.2)

/-- `UserService.filter_users`: resolve the strategy and run the matching
paginated pass. -/
def filterUsers (t : List AttrMap) (f : Filters) (limit : Nat)
    (lastEvaluatedKey : Option String) : List AttrMap × Option String :=
  match chooseBestStrategy f with
  | Strategy.gsiQuery prim _ => queryWithPagination t prim f limit lastEvaluatedKey
  | Strategy.scan => scanWithPagination t f limit lastEvaluatedKey

/-- One full unpaginated pass with the same filters: every item of the
strategy's source passing the server filter and every residual filter, in
source order, cleaned like the paginated results. -/
def fullPass (t : List AttrMap) (f : Filters) : List AttrMap :=
  match chooseBestStrategy f with
  | Strategy.gsiQuery prim _ =>
      ((gsiSource t prim).filter (fun i => matchesAllFilters i f)).map cleanDynamoFields
  | Strategy.scan =>
      ((t.filter scanServerFilter).filter (fun i => matchesAllFilters i f)).map
        cleanDynamoFields

/-- A client driving `filter_users` to exhaustion: call, keep the page, and
repeat with the returned continuation token until none is returned. -/
def collectUserPages (t : List AttrMap) (f : Filters) (limit : Nat) :
    Nat → Option String → List AttrMap
  | 0, _ => []
  | fuel + 1, tok =>
      match filterUsers t f limit tok with
      | (page, none) => page
      | (page, some s) => page ++ collectUserPages t f limit fuel (some s)

/-- The analytics filter dictionary of `get_analytics`. -/
structure AnalyticsFilters where
  status : Option String := none
  utmCampaign : Option String := none
  utmSource : Option String := none
  utmMedium : Option String := none
  startDate : Option String := none
  endDate : Option String := none
deriving DecidableEq, Repr

/-- Does the string end with the `Z` designator (`s.endswith("Z")`). -/
def endsWithZ (s : String) : Bool :=
  match s.data.getLast? with
  | some c => c = 'Z'
  | none => false

/-- Normalize a trailing `Z` designator to an explicit zero UTC offset before
parsing (`s[:-1] + "+00:00"`). -/
def normalizeZ (s : String) : String :=
  if endsWithZ s then String.mk s.data.dropLast ++ "+00:00" else s

/-- Is the character a decimal digit. -/
def isDigitCh (c : Char) : Bool :=
  (charVal c).isSome

/-- Are all characters decimal digits. -/
def allDig (l : List Char) : Bool :=
  l.all isDigitCh

/-- The ISO-8601 shapes accepted by the model's timestamp parser: a date, a
date-time, or a date-time with an explicit UTC offset. -/
def isoShape (s : String) : Bool :=
  match s.data with
  | [y1, y2, y3, y4, '-', m1, m2, '-', d1, d2] =>
      allDig [y1, y2, y3, y4, m1, m2, d1, d2]
  | [y1, y2, y3, y4, '-', m1, m2, '-', d1, d2, 'T', h1, h2, ':', n1, n2, ':', s1, s2] =>
      allDig [y1, y2, y3, y4, m1, m2, d1, d2, h1, h2, n1, n2, s1, s2]
  | [y1, y2, y3, y4, '-', m1, m2, '-', d1, d2, 'T', h1, h2, ':', n1, n2, ':', s1, s2,
     '+', o1, o2, ':', o3, o4] =>
      allDig [y1, y2, y3, y4, m1, m2, d1, d2, h1, h2, n1, n2, s1, s2, o1, o2, o3, o4]
  | _ => false

/-- Model of `datetime.fromisoformat`: succeed exactly on well-formed
ISO-8601 strings (a representative subset of the shapes the source accepts)
and fail with `ValueError` otherwise.  The parsed value is represented by the
canonical string itself; same-shape ISO strings compare chronologically in
lexicographic order. -/
def parseDT (s : String) : Option String :=
  if isoShape s then some s else none

/-- The end-date half of the analytics date check: exclude the record when
the end filter fails to parse (the `ValueError` is caught by the same
`except` that guards record timestamps) or when the record is newer. -/
def analyticsEndOk (idt : String) (f : AnalyticsFilters) : Bool :=
  match f.endDate with
  | some ed =>
      (match parseDT (normalizeZ ed) with
       | none => false
       | some edt => if edt < idt then false else true)
  | none => true

/-- The start-date half, falling through to the end-date half. -/
def analyticsDateOk (idt : String) (f : AnalyticsFilters) : Bool :=
  match f.startDate with
  | some sd =>
      (match parseDT (normalizeZ sd) with
       | none => false
       | some sdt => if idt < sdt then false else analyticsEndOk idt f)
  | none => analyticsEndOk idt f

/-- `EmailService._matches_analytics_filters`: exact-match status and UTM
filters, then the inclusive creation-time range; a record with a missing,
empty, or unparseable `createdAt` is excluded (not raised) whenever a date
filter is present. -/
def matchesAnalyticsFilters (item : AttrMap) (f : AnalyticsFilters) : Bool :=
  (match f.status with
   | some v => getAttr item "status" == some (AttrVal.s v)
   | none => true) &&
  (match f.utmCampaign with
   | some v => getAttr item "utmCampaign" == some (AttrVal.s v)
   | none => true) &&
  (match f.utmSource with
   | some v => getAttr item "utmSource" == some (AttrVal.s v)
   | none => true) &&
  (match f.utmMedium with
   | some v => getAttr item "utmMedium" == some (AttrVal.s v)
   | none => true) &&
  (if f.startDate.isSome || f.endDate.isSome then
     (match getS item "createdAt" with
      | none => false
      | some d =>
          if d = "" then false
          else
            match parseDT (normalizeZ d) with
            | none => false
            | some idt => analyticsDateOk idt f)
   else true)

/-- Server-side filter of the analytics scan: `Attr("SK").eq("ANALYTICS")`. -/
def analyticsScanFilter (r : AttrMap) : Bool :=
  getAttr r "SK" == some (AttrVal.s "ANALYTICS")

/-- The accumulation loop of `_get_filtered_analytics`: like the user loop
but with no early break — every match of the batch is appended, so the
accumulator can overshoot the page size. -/
def analyticsLoop (t : List AttrMap) (f : AnalyticsFilters) (limit : Nat) :
    Nat → List AttrMap → Option Nat → List AttrMap × Option Nat
  | 0, emails, cursor => (emails, cursor)
  | fuel + 1, emails, cursor =>
      if emails.length < limit then
        let p := cursor.getD 0
        let scanLimit := min ((limit - emails.length) * 5) 100
        let returned := ((t.drop p).take scanLimit).filter analyticsScanFilter
        let batchItems := returned.filter (fun i => matchesAnalyticsFilters i f)
        let emails2 := emails ++ batchItems
        let lastKey := if p + scanLimit < t.length then some (p + scanLimit) else none
        match lastKey with
        | none => (emails2, none)
        | some q => analyticsLoop t f limit fuel emails2 (some q)
      else (emails, cursor)

/-- The sort key `x.get("createdAt", "")`. -/
def createdAtD (item : AttrMap) : String :=
  match getS item "createdAt" with
  | some d => d
  | none => ""

/-- Insert into a list already sorted by creation timestamp descending,
before the first element that does not strictly exceed it (so that elements
with equal timestamps keep their original relative order). -/
def insertByCreatedDesc (x : AttrMap) : List AttrMap → List AttrMap
  | [] => [x]
  | y :: ys =>
      if createdAtD y ≤ createdAtD x then x :: y :: ys
      else y :: insertByCreatedDesc x ys

/-- `emails.sort(key=..., reverse=True)`: a stable sort by creation timestamp
descending (newest first), modelled as stable insertion sort (any stable
sort produces the same output). -/
def sortByCreatedDesc (l : List AttrMap) : List AttrMap :=
  l.foldr insertByCreatedDesc []

/-- `EmailService._get_filtered_analytics`: accumulate, then re-sort by
creation timestamp descending, truncate to the page size, and emit a token
only when the store still reported a cursor. -/
def getFilteredAnalytics (t : List AttrMap) (f : AnalyticsFilters) (limit : Nat)
    (lastEvaluatedKey : Option String) : List AttrMap × Option String :=
  let startKey := parseStartKey lastEvaluatedKey
  let res := analyticsLoop t f limit (t.length + 1) [] startKey
  let sorted := sortByCreatedDesc res.1
  let resultEmails := sorted.take limit
  let hasMore := decide (limit < res.1.length) || res.2.isSome
  let nextToken :=
    match hasMore, res.2 with
    | true, some k => some (encodeToken k)
    | _, _ => none
  (resultEmails, nextToken)

/-- `EmailService._get_analytics_count`: the scan-until-exhausted counting
pass — every `ANALYTICS` row matching the filters, over the whole table. -/
def getAnalyticsCount (t : List AttrMap) (f : AnalyticsFilters) : Nat :=
  ((t.filter analyticsScanFilter).filter (fun i => matchesAnalyticsFilters i f)).length

/-- Append an explicit null marker when the field is absent. -/
def ensureField (m : AttrMap) (k : String) : AttrMap :=
  if (getAttr m k).isSome then m else m ++ [(k, AttrVal.nullV)]

/-- `EmailService._clean_analytics_fields`: drop `PK`/`SK` and materialize
the optional fields with explicit null markers. -/
def cleanAnalyticsFields (item : AttrMap) : AttrMap :=
  let cleaned := item.filter (fun e => !(e.1 == "PK" || e.1 == "SK"))
  ensureField (ensureField (ensureField (ensureField (ensureField cleaned
    "utmCampaign") "utmSource") "utmMedium") "sentAt") "errorMessage"

/-- The `get_analytics` response shape. -/
structure AnalyticsResponse where
  emails : List AttrMap
  count : Nat
  total : Nat
  hasMore : Bool
  nextToken : Option String
deriving DecidableEq, Repr

/-- `EmailService.get_analytics`: run the filtered paginated pass, compute
the total by a separate full pass, and report `hasMore` as the presence of
the next token. -/
def getAnalytics (t : List AttrMap) (f : AnalyticsFilters) (limit : Nat)
    (lastEvaluatedKey : Option String) : AnalyticsResponse :=
  let res := getFilteredAnalytics t f limit lastEvaluatedKey
  let totalCount := getAnalyticsCount t f
  ⟨res.1.map cleanAnalyticsFields, res.1.length, totalCount,
    res.2.isSome, res.2⟩

/-- Does a row carry the given primary key. -/
def rowKeyIs (r : AttrMap) (pk sk : String) : Bool :=
  getAttr r "PK" == some (AttrVal.s pk) && getAttr r "SK" == some (AttrVal.s sk)

/-- `get_item`-style point lookup. -/
def getRow (t : List AttrMap) (pk sk : String) : Option AttrMap :=
  t.find? (fun r => rowKeyIs r pk sk)

/-- `put_item`: replace the item with the same key, or append. -/
def putRow : List AttrMap → AttrMap → List AttrMap
  | [], item => [item]
  | r :: rs, item =>
      if rowKeyIs r (getSD item "PK" "") (getSD item "SK" "") then item :: rs
      else r :: putRow rs item

/-- `update_item`: rewrite the item with the given key in place, creating it
from the key alone when absent. -/
def updateRow : List AttrMap → String → String → (AttrMap → AttrMap) → List AttrMap
  | [], pk, sk, upd => [upd [("PK", AttrVal.s pk), ("SK", AttrVal.s sk)]]
  | r :: rs, pk, sk, upd =>
      if rowKeyIs r pk sk then upd r :: rs else r :: updateRow rs pk sk upd

/-- `ADD attr :inc`: a missing attribute counts as 0. -/
def addToAttr (k : String) (inc : Int) (m : AttrMap) : AttrMap :=
  setAttr m k (AttrVal.n (getNumD m k 0 + inc))

/-- `UserService.increment_hosted_count`: atomically add 1 to the counter,
read the new value back, and rewrite the hosted-count projection key with the
zero-padded new value. -/
def incrementHostedCount (t : List AttrMap) (userId : String) : List AttrMap :=
  let t1 := updateRow t ("USER#" ++ userId) "PROFILE" (addToAttr "hostedEventCount" 1)
  let newCount :=
    match getRow t1 ("USER#" ++ userId) "PROFILE" with
    | some r => getNumD r "hostedEventCount" 0
    | none => 0
  updateRow t1 ("USER#" ++ userId) "PROFILE"
    (fun m =>
      setAttr m "GSI_UsersByHostedCount_SK"
        (AttrVal.s ("HOSTED_COUNT#" ++ pad10 newCount ++ "#USER#" ++ userId)))

/-- `UserService.increment_attended_count`: same two-step update for the
attended counter, rewriting both attended-count projection keys. -/
def incrementAttendedCount (t : List AttrMap) (userId : String) : List AttrMap :=
  let t1 := updateRow t ("USER#" ++ userId) "PROFILE" (addToAttr "attendedEventCount" 1)
  let newCount :=
    match getRow t1 ("USER#" ++ userId) "PROFILE" with
    | some r => getNumD r "attendedEventCount" 0
    | none => 0
  updateRow t1 ("USER#" ++ userId) "PROFILE"
    (fun m =>
      setAttr
        (setAttr m "GSI_UsersByAttendedCount_SK"
          (AttrVal.s ("ATTENDED_COUNT#" ++ pad10 newCount ++ "#USER#" ++ userId)))
        "GSI_UsersByActivity_SK"
        (AttrVal.s ("ATTENDED_COUNT#" ++ pad10 newCount ++ "#USER#" ++ userId)))

/-- The `EventCreate` payload (`startAt`/`endAt` carried as their ISO
renderings). -/
structure EventCreate where
  slug : String
  title : String
  description : String
  startAt : String
  endAt : String
  venue : String
  maxCapacity : Int
  owner : String
  hostIds : List String
  attendeeIds : List String
deriving DecidableEq, Repr

/-- The `EventOut` view returned on success. -/
structure EventOut where
  id : String
  slug : String
  title : String
  description : String
  startAt : String
  endAt : String
  venue : String
  maxCapacity : Int
  owner : String
  attendeeCount : Nat
deriving DecidableEq, Repr

/-- One element of the `TransactItems` list: a `Put` (optionally guarded by
`attribute_not_exists(PK)`) or a `ConditionCheck` requiring the keyed item to
exist. -/
inductive TransactItem where
  | putItem (item : AttrMap) (condNotExists : Bool)
  | conditionCheck (pk sk : String)
deriving DecidableEq, Repr

/-- Evaluate one transaction item's condition against the pre-transaction
table state. -/
def transactCondOk (t : List AttrMap) : TransactItem → Bool
  | TransactItem.putItem item cond =>
      if cond then (getRow t (getSD item "PK" "") (getSD item "SK" "")).isNone else true
  | TransactItem.conditionCheck pk sk => (getRow t pk sk).isSome

/-- Apply one transaction item's write. -/
def applyTransactItem (t : List AttrMap) : TransactItem → List AttrMap
  | TransactItem.putItem item _ => putRow t item
  | TransactItem.conditionCheck _ _ => t

/-- `transact_write_items`: all-or-nothing — if any condition fails against
the current state the store cancels the whole transaction with a
`ConditionalCheckFailed` reason and no write is applied. -/
def transactWriteItems (t : List AttrMap) (items : List TransactItem) :
    Option (List AttrMap) :=
  if items.all (transactCondOk t) then some (items.foldl applyTransactItem t)
  else none

/-- The main event detail item built by `create_event`. -/
def eventDetailItem (eventId : String) (d : EventCreate) : AttrMap :=
  [("PK", AttrVal.s ("EVENT#" ++ eventId)), ("SK", AttrVal.s "DETAIL"),
   ("id", AttrVal.s eventId), ("slug", AttrVal.s d.slug),
   ("title", AttrVal.s d.title), ("description", AttrVal.s d.description),
   ("startAt", AttrVal.s d.startAt), ("endAt", AttrVal.s d.endAt),
   ("venue", AttrVal.s d.venue), ("maxCapacity", AttrVal.n d.maxCapacity),
   ("owner", AttrVal.s d.owner),
   ("attendeeCount", AttrVal.n (d.attendeeIds.length : Int)),
   ("GSI_EventsByDate_PK", AttrVal.s "EVENT_TIMELINE"),
   ("GSI_EventsByDate_SK",
     AttrVal.s ("DATE#" ++ String.mk (d.startAt.data.take 10)))]

/-- A host relationship edge item. -/
def hostItem (eventId hostId : String) : AttrMap :=
  [("PK", AttrVal.s ("EVENT#" ++ eventId)), ("SK", AttrVal.s ("HOST#" ++ hostId)),
   ("userId", AttrVal.s hostId), ("eventId", AttrVal.s eventId),
   ("role", AttrVal.s "host"),
   ("GSI_EventAttendees_PK", AttrVal.s ("EVENT#" ++ eventId)),
   ("GSI_EventAttendees_SK", AttrVal.s ("USER#" ++ hostId))]

/-- An attendee relationship edge item. -/
def attendeeItem (eventId attendeeId : String) : AttrMap :=
  [("PK", AttrVal.s ("USER#" ++ attendeeId)),
   ("SK", AttrVal.s ("ATTENDS#" ++ eventId)),
   ("userId", AttrVal.s attendeeId), ("eventId", AttrVal.s eventId),
   ("role", AttrVal.s "attendee"),
   ("GSI_EventAttendees_PK", AttrVal.s ("EVENT#" ++ eventId)),
   ("GSI_EventAttendees_SK", AttrVal.s ("USER#" ++ attendeeId))]

/-- The transaction built by `create_event`: the unconditional event put,
then per host a guarded edge put plus a profile existence check, then the
same pair per attendee. -/
def eventTransactItems (eventId : String) (d : EventCreate) : List TransactItem :=
  [TransactItem.putItem (eventDetailItem eventId d) false] ++
  d.hostIds.flatMap
    (fun h =>
      [TransactItem.putItem (hostItem eventId h) true,
       TransactItem.conditionCheck ("USER#" ++ h) "PROFILE"]) ++
  d.attendeeIds.flatMap
    (fun a =>
      [TransactItem.putItem (attendeeItem eventId a) true,
       TransactItem.conditionCheck ("USER#" ++ a) "PROFILE"])

/-- `EventService.create_event`: submit the transaction; on cancellation the
conditional-check failure is translated to the single user-facing message and
nothing is written; on success the per-person counter increments run outside
the transaction and the constructed view is returned with `attendeeCount`
taken from the input list length. -/
def createEvent (eventId : String) (d : EventCreate) (t : List AttrMap) :
    List AttrMap × Except String EventOut :=
  match transactWriteItems t (eventTransactItems eventId d) with
  | none => (t, Except.error "Transaction failed: User not found or duplicate entry")
  | some t1 =>
      let t2 := d.hostIds.foldl incrementHostedCount t1
      let t3 := d.attendeeIds.foldl incrementAttendedCount t2
      (t3, Except.ok
        ⟨eventId, d.slug, d.title, d.description, d.startAt, d.endAt, d.venue,
          d.maxCapacity, d.owner, d.attendeeIds.length⟩)

/-- The `UserCreate` payload. -/
structure UserCreate where
  firstName : String
  lastName : String
  phoneNumber : String
  email : String
  avatar : Option String := none
  gender : Option String := none
  jobTitle : Option String := none
  company : Option String := none
  city : Option String := none
  state : Option String := none
deriving DecidableEq, Repr

/-- The profile item written by `UserService.create_user`: identity fields,
zeroed counters, the optional attributes that are present, and the derived
GSI projection keys. -/
def createUserItem (userId : String) (u : UserCreate) : AttrMap :=
  [("PK", AttrVal.s ("USER#" ++ userId)), ("SK", AttrVal.s "PROFILE"),
   ("id", AttrVal.s userId), ("firstName", AttrVal.s u.firstName),
   ("lastName", AttrVal.s u.lastName), ("phoneNumber", AttrVal.s u.phoneNumber),
   ("email", AttrVal.s u.email),
   ("hostedEventCount", AttrVal.n 0), ("attendedEventCount", AttrVal.n 0)] ++
  (match u.avatar with
   | some v => [("avatar", AttrVal.s v)]
   | none => []) ++
  (match u.gender with
   | some v => [("gender", AttrVal.s v)]
   | none => []) ++
  (match u.jobTitle with
   | some v => [("jobTitle", AttrVal.s v)]
   | none => []) ++
  (match u.company with
   | some v => [("company", AttrVal.s v)]
   | none => []) ++
  (match u.city with
   | some v => [("city", AttrVal.s v)]
   | none => []) ++
  (match u.state with
   | some v => [("state", AttrVal.s v)]
   | none => []) ++
  (match u.company with
   | some v =>
       [("GSI_ByCompany_PK", AttrVal.s ("COMPANY#" ++ v)),
        ("GSI_ByCompany_SK",
          AttrVal.s ("LASTNAME#" ++ u.lastName ++ "#USER#" ++ userId))]
   | none => []) ++
  (match u.jobTitle with
   | some v =>
       [("GSI_ByJobTitle_PK", AttrVal.s ("JOBTITLE#" ++ v)),
        ("GSI_ByJobTitle_SK",
          AttrVal.s ("LASTNAME#" ++ u.lastName ++ "#USER#" ++ userId))]
   | none => []) ++
  (match u.city, u.state with
   | some c, some st =>
       [("GSI_ByLocation_PK", AttrVal.s ("LOCATION#" ++ st ++ "#" ++ c)),
        ("GSI_ByLocation_SK",
          AttrVal.s ("LASTNAME#" ++ u.lastName ++ "#USER#" ++ userId))]
   | _, _ => []) ++
  [("GSI_UsersByHostedCount_PK", AttrVal.s "USER_PROFILE"),
   ("GSI_UsersByHostedCount_SK",
     AttrVal.s ("HOSTED_COUNT#" ++ pad10 0 ++ "#USER#" ++ userId)),
   ("GSI_UsersByAttendedCount_PK", AttrVal.s "USER_PROFILE"),
   ("GSI_UsersByAttendedCount_SK",
     AttrVal.s ("ATTENDED_COUNT#" ++ pad10 0 ++ "#USER#" ++ userId)),
   ("GSI_UsersByActivity_PK", AttrVal.s "USER_ACTIVITY"),
   ("GSI_UsersByActivity_SK",
     AttrVal.s ("ATTENDED_COUNT#" ++ pad10 0 ++ "#USER#" ++ userId))]

/-- The `EmailSendRequest` payload (schema defaults included by callers). -/
structure EmailSendRequest where
  subject : String
  body : String
  utmCampaign : Option String := none
  utmSource : Option String := some "crm"
  utmMedium : Option String := some "email"
  company : Option String := none
  jobTitle : Option String := none
  city : Option String := none
  state : Option String := none
  hostedEventCountMin : Option Int := none
  hostedEventCountMax : Option Int := none
  attendedEventCountMin : Option Int := none
  attendedEventCountMax : Option Int := none
deriving DecidableEq, Repr

/-- The `EmailSendResponse` payload. -/
structure EmailSendResponse where
  message : String
  emailsQueued : Nat
  campaignId : String
deriving DecidableEq, Repr

/-- The recipient filter dictionary built by `send_bulk_email`: city and
state are forwarded only when both are present, and each count range is
forwarded when either bound is present. -/
def buildEmailFilters (req : EmailSendRequest) : Filters :=
  { company := req.company
    jobTitle := req.jobTitle
    city :=
      match req.city, req.state with
      | some c, some _ => some c
      | _, _ => none
    state :=
      match req.city, req.state with
      | some _, some st => some st
      | _, _ => none
    hostedEventCount :=
      if req.hostedEventCountMin.isSome || req.hostedEventCountMax.isSome then
        some ⟨req.hostedEventCountMin, req.hostedEventCountMax⟩
      else none
    attendedEventCount :=
      if req.attendedEventCountMin.isSome || req.attendedEventCountMax.isSome then
        some ⟨req.attendedEventCountMin, req.attendedEventCountMax⟩
      else none }

/-- One `EmailSendRecord` analytics item, created in the `queued` state with
the campaign id and creation timestamp, plus the UTM fields that are
present. -/
def emailAnalyticsItem (user : AttrMap) (emailId campaignId subject now : String)
    (utmC utmS utmM : Option String) : AttrMap :=
  [("PK", AttrVal.s ("EMAIL#" ++ emailId)), ("SK", AttrVal.s "ANALYTICS"),
   ("id", AttrVal.s emailId), ("userId", AttrVal.s (getSD user "id" "")),
   ("email", AttrVal.s (getSD user "email" "")), ("subject", AttrVal.s subject),
   ("status", AttrVal.s "queued"), ("campaignId", AttrVal.s campaignId),
   ("createdAt", AttrVal.s now)] ++
  (match utmC with
   | some v => [("utmCampaign", AttrVal.s v)]
   | none => []) ++
  (match utmS with
   | some v => [("utmSource", AttrVal.s v)]
   | none => []) ++
  (match utmM with
   | some v => [("utmMedium", AttrVal.s v)]
   | none => [])

/-- `_create_email_analytics_items`: one item per recipient, written in
order; `idGen i` stands for the i-th freshly generated email id. -/
def emailItemsLoop (campaignId subject now : String)
    (utmC utmS utmM : Option String) (idGen : Nat → String) :
    List AttrMap → Nat → List AttrMap → List String × List AttrMap
  | [], _, t => ([], t)
  | u :: us, i, t =>
      let emailId := idGen i
      let item := emailAnalyticsItem u emailId campaignId subject now utmC utmS utmM
      let res := emailItemsLoop campaignId subject now utmC utmS utmM idGen us (i + 1)
        (putRow t item)
      (emailId :: res.1, res.2)

/-- `EmailService.send_bulk_email` (synchronous phase): build the recipient
filters, fetch one default-sized page of recipients, create one queued
analytics item per recipient under a single fresh campaign id, and report the
queued count.  The asynchronous per-recipient delivery tasks are outside the
model. -/
def sendBulkEmail (req : EmailSendRequest) (campaignId : String)
    (idGen : Nat → String) (now : String) (t : List AttrMap) :
    List AttrMap × EmailSendResponse :=
  let filters := buildEmailFilters req
  let users := (filterUsers t filters 50 none).1
  let res := emailItemsLoop campaignId req.subject now req.utmCampaign req.utmSource
    req.utmMedium idGen users 0 t
  (res.2,
    ⟨"Emails queued successfully for " ++ numRepr users.length ++ " recipients",
      users.length, campaignId⟩)

/-- The primary index type chosen by a strategy, if any. -/
def strategyPrimaryType : Strategy → Option FType
  | Strategy.gsiQuery p _ => some p.ftype
  | Strategy.scan => none

/-- The residual (secondary) filter types carried by a strategy. -/
def strategyResidualTypes : Strategy → List FType
  | Strategy.gsiQuery _ s => s.map (fun c => c.ftype)
  | Strategy.scan => []

/-- An item that both passes the server-side filter and matches every
residual filter — the items a full pass yields. -/
def userGood (f : Filters) (serverF : AttrMap → Bool) (i : AttrMap) : Bool :=
  matchesAllFilters i f && serverF i

/-- The source list the chosen strategy paginates over. -/
def strategySrc (t : List AttrMap) (f : Filters) : List AttrMap :=
  match chooseBestStrategy f with
  | Strategy.gsiQuery prim _ => gsiSource t prim
  | Strategy.scan => t

/-- The server-side filter the chosen strategy applies. -/
def strategyServerF (f : Filters) : AttrMap → Bool :=
  match chooseBestStrategy f with
  | Strategy.gsiQuery _ _ => fun _ => true
  | Strategy.scan => scanServerFilter

/-- The over-fetch multiplier the chosen strategy uses. -/
def strategyMult (f : Filters) : Nat :=
  match chooseBestStrategy f with
  | Strategy.gsiQuery _ _ => 3
  | Strategy.scan => 5

/-- The position up to which a pagination round has consumed its source:
the returned cursor, or the end of the source when none remains. -/
def cursorStop (srcLen : Nat) : Option Nat → Nat
  | some q => q
  | none => srcLen

/-- The analytics items `emailItemsLoop` writes, as a standalone list. -/
def buildEmailItems (campaignId subject now : String)
    (utmC utmS utmM : Option String) (idGen : Nat → String) :
    List AttrMap → Nat → List AttrMap
  | [], _ => []
  | u :: us, i =>
      emailAnalyticsItem u (idGen i) campaignId subject now utmC utmS utmM ::
        buildEmailItems campaignId subject now utmC utmS utmM idGen us (i + 1)

/-- How many rows of the table carry the given campaign id. -/
def countCampaign (t : List AttrMap) (cid : String) : Nat :=
  (t.filter (fun r => getAttr r "campaignId" == some (AttrVal.s cid))).length

/-- A minimal user profile row used by concrete witnesses. -/
def sampleProfile (uid : String) : AttrMap :=
  createUserItem uid
    ⟨"Ada", "Li", "555", "a@b.c", none, none, none, none, none, none⟩

/-- A minimal email analytics row used by concrete witnesses. -/
def sampleEmailRow (i ts : String) : AttrMap :=
  [("PK", AttrVal.s ("EMAIL#" ++ i)), ("SK", AttrVal.s "ANALYTICS"),
   ("id", AttrVal.s i), ("status", AttrVal.s "queued"),
   ("campaignId", AttrVal.s "c0"), ("createdAt", AttrVal.s ts)]

/-! ### Helper lemmas -/

theorem charsToDigits_map (l : List Nat) (h : ∀ d ∈ l, d < 10) :
    charsToDigits (l.map digitChar) = some l := by
  induction l with
  | nil => rfl
  | cons d ds ih =>
      have hd : d < 10 := h d (List.mem_cons_self d ds)
      have hds := ih (fun x hx => h x (List.mem_cons_of_mem d hx))
      rw [List.map_cons]
      show (match charVal (digitChar d), charsToDigits (ds.map digitChar) with
        | some d, some ds => some (d :: ds)
        | _, _ => none) = some (d :: ds)
      rw [hds]
      interval_cases d <;> rfl

theorem decode_encode (n : Nat) : decodeToken (encodeToken n) = some n := by
  by_cases h0 : n = 0
  · subst h0; rfl
  · have hdig : ∀ d ∈ (Nat.digits 10 n).reverse, d < 10 := by
      intro d hd
      exact Nat.digits_lt_base (by norm_num) (List.mem_reverse.mp hd)
    have hne : Nat.digits 10 n ≠ [] := Nat.digits_ne_nil_iff_ne_zero.mpr h0
    have hrevne : (Nat.digits 10 n).reverse ≠ [] := by simpa using hne
    unfold encodeToken numRepr decodeToken
    rw [if_neg h0]
    have hdata : (String.mk (((Nat.digits 10 n).reverse).map digitChar)).data
        = ((Nat.digits 10 n).reverse).map digitChar := rfl
    rw [hdata, charsToDigits_map _ hdig]
    simp [hrevne, Nat.ofDigits_digits]

theorem getAttr_filter_of_kept (m : AttrMap) (p : String × AttrVal → Bool)
    (k : String) (h : ∀ v, p (k, v) = true) :
    getAttr (m.filter p) k = getAttr m k := by
  induction m with
  | nil => rfl
  | cons e es ih =>
      by_cases he : e.1 = k
      · have hp : p e = true := by
          have h2 := h e.2
          rw [← he] at h2
          simpa using h2
        simp [List.filter_cons, hp, getAttr, List.find?_cons, he]
      · cases hp : p e
        · simpa [List.filter_cons, hp, getAttr, List.find?_cons, he] using ih
        · simpa [List.filter_cons, hp, getAttr, List.find?_cons, he] using ih

theorem getAttr_append (m1 m2 : AttrMap) (k : String) :
    getAttr (m1 ++ m2) k = (getAttr m1 k).or (getAttr m2 k) := by
  unfold getAttr
  rw [List.find?_append]
  cases List.find? (fun e => e.1 == k) m1 <;> simp

theorem getAttr_ensureField_ne (m : AttrMap) (k k0 : String) (h : k ≠ k0) :
    getAttr (ensureField m k) k0 = getAttr m k0 := by
  unfold ensureField
  by_cases hs : (getAttr m k).isSome
  · simp [hs]
  · rw [if_neg hs, getAttr_append]
    have h1 : getAttr [(k, AttrVal.nullV)] k0 = none := by
      unfold getAttr
      simp [List.find?_cons, h]
    rw [h1]
    cases getAttr m k0 <;> rfl

theorem getAttr_cleanAnalytics_createdAt (m : AttrMap) :
    getAttr (cleanAnalyticsFields m) "createdAt" = getAttr m "createdAt" := by
  unfold cleanAnalyticsFields
  rw [getAttr_ensureField_ne _ _ _ (by decide), getAttr_ensureField_ne _ _ _ (by decide),
    getAttr_ensureField_ne _ _ _ (by decide), getAttr_ensureField_ne _ _ _ (by decide),
    getAttr_ensureField_ne _ _ _ (by decide)]
  exact getAttr_filter_of_kept m _ _ (fun v => rfl)

theorem createdAtD_clean (m : AttrMap) :
    createdAtD (cleanAnalyticsFields m) = createdAtD m := by
  unfold createdAtD getS
  rw [getAttr_cleanAnalytics_createdAt]

/-! ### C3 -/

/-- C3: for every filter set with at least two recognized filters, the
selector picks the filter with the numerically lowest configured selectivity
(ties broken in the spec's declared order, which agrees with the source's
iteration order on the only possible tie, hostedCount before attendedCount),
and classifies every other recognized filter as residual. -/
theorem chooseBestStrategy_min_selectivity (f : Filters)
    (h : 2 ≤ (availableFilters f).length) :
    strategyPrimaryType (chooseBestStrategy f) = specPrimaryType f ∧
    strategyResidualTypes (chooseBestStrategy f) =
      (availableTypes f).filter
        (fun ty => strategyPrimaryType (chooseBestStrategy f) ≠ some ty) := by
  obtain ⟨c, j, ci, st, hc, ac⟩ := f
  rcases c <;> rcases j <;> rcases ci <;> rcases st <;> rcases hc <;> rcases ac <;>
    simp_all [availableFilters, chooseBestStrategy, minBySelectivity, specPrimaryType,
      specOrderAvailableFilters, strategyPrimaryType, strategyResidualTypes,
      availableTypes, indexSelectivity, FilterChoice.mk.injEq]

theorem chooseBestStrategy_min_selectivity_witness :
    2 ≤ (availableFilters
      ⟨none, none, none, none, some ⟨some 0, none⟩, some ⟨some 1, none⟩⟩).length ∧
    strategyPrimaryType (chooseBestStrategy
      ⟨none, none, none, none, some ⟨some 0, none⟩, some ⟨some 1, none⟩⟩) =
      specPrimaryType
        ⟨none, none, none, none, some ⟨some 0, none⟩, some ⟨some 1, none⟩⟩ :=
  ⟨by decide, (chooseBestStrategy_min_selectivity _ (by decide)).1⟩

/-! ### C7 -/

/-- C7: a continuation token that fails to decode behaves exactly like no
token at all, for both the user query pagination and the analytics
pagination; the decode failure is swallowed, never raised. -/
theorem malformed_token_restarts (t : List AttrMap) (f : Filters)
    (af : AnalyticsFilters) (limit : Nat) (s : String)
    (h : decodeToken s = none) :
    filterUsers t f limit (some s) = filterUsers t f limit none ∧
    getFilteredAnalytics t af limit (some s) = getFilteredAnalytics t af limit none := by
  have hp : parseStartKey (some s) = parseStartKey none := by
    simp [parseStartKey, h]
  constructor
  · unfold filterUsers
    cases chooseBestStrategy f with
    | gsiQuery prim sec =>
        unfold queryWithPagination
        rw [hp]
    | scan =>
        unfold scanWithPagination
        rw [hp]
  · unfold getFilteredAnalytics
    rw [hp]

theorem malformed_token_restarts_witness :
    decodeToken "@bad@" = none ∧
    filterUsers [sampleProfile "u1"] {} 10 (some "@bad@") =
      filterUsers [sampleProfile "u1"] {} 10 none :=
  ⟨by decide,
    (malformed_token_restarts [sampleProfile "u1"] {} {} 10 "@bad@" (by decide)).1⟩

/-! ### C8 -/

theorem matchesAnalytics_bad_item_date (f : AnalyticsFilters) (item : AttrMap)
    (hpresent : (f.startDate.isSome || f.endDate.isSome) = true)
    (d : String) (hd : getS item "createdAt" = some d)
    (hparse : parseDT (normalizeZ d) = none) :
    matchesAnalyticsFilters item f = false := by
  unfold matchesAnalyticsFilters
  rw [hpresent]
  simp only [if_true, hd]
  by_cases hd0 : d = ""
  · simp [hd0]
  · simp [hd0, hparse]

theorem matchesAnalytics_bad_start_filter (f : AnalyticsFilters) (item : AttrMap)
    (sd : String) (hsd : f.startDate = some sd)
    (hparse : parseDT (normalizeZ sd) = none) :
    matchesAnalyticsFilters item f = false := by
  have hpresent : (f.startDate.isSome || f.endDate.isSome) = true := by simp [hsd]
  unfold matchesAnalyticsFilters
  rw [hpresent]
  simp only [if_true]
  cases hgd : getS item "createdAt" with
  | none => simp
  | some d2 =>
      by_cases hd0 : d2 = ""
      · simp [hd0]
      · cases hpd : parseDT (normalizeZ d2) with
        | none => simp [hd0, hpd]
        | some idt => simp [hd0, hpd, analyticsDateOk, hsd, hparse]

theorem analyticsLoop_emails_nil (t : List AttrMap) (f : AnalyticsFilters)
    (limit : Nat) (hall : ∀ i, matchesAnalyticsFilters i f = false) :
    ∀ fuel cursor, (analyticsLoop t f limit fuel [] cursor).1 = [] := by
  intro fuel
  induction fuel with
  | zero => intro c; rfl
  | succ n ih =>
      intro c
      unfold analyticsLoop
      by_cases hlim : (([] : List AttrMap)).length < limit
      · rw [if_pos hlim]
        have hfil :
            (((t.drop (c.getD 0)).take (min ((limit - ([] : List AttrMap).length) * 5) 100)).filter
              analyticsScanFilter).filter (fun i => matchesAnalyticsFilters i f) = [] :=
          List.filter_eq_nil_iff.mpr (fun a _ => by simp [hall a])
        simp only [hfil, List.append_nil]
        split
        · rfl
        · exact ih _
      · rw [if_neg hlim]

/-- C8 (amended): with a creation-date filter present, a record whose stored
`createdAt` is malformed is excluded without raising; and a `start_date`
filter value that itself fails to parse is caught by the same handler and
excludes every record — the request still returns a normal (empty) response
instead of failing. -/
theorem analytics_malformed_dates_excluded (f : AnalyticsFilters)
    (item : AttrMap) (t : List AttrMap) (limit : Nat) (tok : Option String) :
    ((f.startDate.isSome || f.endDate.isSome) = true →
      ∀ d, getS item "createdAt" = some d → parseDT (normalizeZ d) = none →
        matchesAnalyticsFilters item f = false) ∧
    (∀ sd, f.startDate = some sd → parseDT (normalizeZ sd) = none →
      matchesAnalyticsFilters item f = false) ∧
    (∀ sd, f.startDate = some sd → parseDT (normalizeZ sd) = none →
      (getAnalytics t f limit tok).emails = [] ∧
        (getAnalytics t f limit tok).total = 0) := by
  refine ⟨fun hp d hd hparse => matchesAnalytics_bad_item_date f item hp d hd hparse,
    fun sd hsd hparse => matchesAnalytics_bad_start_filter f item sd hsd hparse,
    fun sd hsd hparse => ?_⟩
  have hall : ∀ i, matchesAnalyticsFilters i f = false :=
    fun i => matchesAnalytics_bad_start_filter f i sd hsd hparse
  have hnil := analyticsLoop_emails_nil t f limit hall (t.length + 1) (parseStartKey tok)
  constructor
  · show ((getFilteredAnalytics t f limit tok).1.map cleanAnalyticsFields) = []
    unfold getFilteredAnalytics
    simp only [hnil, sortByCreatedDesc, List.foldr_nil, List.take_nil, List.map_nil]
  · show getAnalyticsCount t f = 0
    unfold getAnalyticsCount
    rw [List.filter_eq_nil_iff.mpr (fun a _ => by simp [hall a])]
    rfl

theorem analytics_malformed_dates_excluded_witness :
    (parseDT (normalizeZ "not-a-date") = none) ∧
    matchesAnalyticsFilters (sampleEmailRow "1" "2024-01-02T00:00:00")
      { startDate := some "not-a-date" } = false :=
  ⟨by decide,
    (analytics_malformed_dates_excluded { startDate := some "not-a-date" }
      (sampleEmailRow "1" "2024-01-02T00:00:00") [] 50 none).2.1
      "not-a-date" rfl (by decide)⟩

theorem analytics_malformed_filter_date_cex :
    parseDT (normalizeZ "not-a-date") = none ∧
    matchesAnalyticsFilters (sampleEmailRow "1" "2024-01-02T00:00:00") {} = true ∧
    getAnalytics [sampleEmailRow "1" "2024-01-02T00:00:00"]
      { startDate := some "not-a-date" } 50 none = ⟨[], 0, 0, false, none⟩ := by
  decide

/-! ### C9 -/

theorem mem_insertByCreatedDesc (x b : AttrMap) (l : List AttrMap) :
    b ∈ insertByCreatedDesc x l ↔ b = x ∨ b ∈ l := by
  induction l with
  | nil => simp [insertByCreatedDesc]
  | cons y ys ih =>
      unfold insertByCreatedDesc
      by_cases hle : createdAtD y ≤ createdAtD x
      · rw [if_pos hle]
        simp [or_comm, or_assoc, or_left_comm]
      · rw [if_neg hle]
        simp [ih]
        tauto

theorem pairwise_insertByCreatedDesc (x : AttrMap) (l : List AttrMap)
    (h : List.Pairwise (fun a b => createdAtD b ≤ createdAtD a) l) :
    List.Pairwise (fun a b => createdAtD b ≤ createdAtD a)
      (insertByCreatedDesc x l) := by
  induction l with
  | nil => simp [insertByCreatedDesc]
  | cons y ys ih =>
      rw [List.pairwise_cons] at h
      obtain ⟨hy, hys⟩ := h
      unfold insertByCreatedDesc
      by_cases hle : createdAtD y ≤ createdAtD x
      · rw [if_pos hle]
        refine List.pairwise_cons.mpr ⟨?_, List.pairwise_cons.mpr ⟨hy, hys⟩⟩
        intro b hb
        rcases List.mem_cons.mp hb with rfl | hb2
        · exact hle
        · exact le_trans (hy b hb2) hle
      · rw [if_neg hle]
        refine List.pairwise_cons.mpr ⟨?_, ih hys⟩
        intro b hb
        rcases (mem_insertByCreatedDesc x b ys).mp hb with rfl | hb2
        · exact le_of_lt (not_le.mp hle)
        · exact hy b hb2

theorem pairwise_sortByCreatedDesc (l : List AttrMap) :
    List.Pairwise (fun a b => createdAtD b ≤ createdAtD a) (sortByCreatedDesc l) := by
  induction l with
  | nil => simp [sortByCreatedDesc]
  | cons x xs ih => exact pairwise_insertByCreatedDesc x _ ih

theorem length_insertByCreatedDesc (x : AttrMap) (l : List AttrMap) :
    (insertByCreatedDesc x l).length = l.length + 1 := by
  induction l with
  | nil => rfl
  | cons y ys ih =>
      unfold insertByCreatedDesc
      by_cases hle : createdAtD y ≤ createdAtD x
      · rw [if_pos hle]; rfl
      · rw [if_neg hle]
        simp [ih]

theorem length_sortByCreatedDesc (l : List AttrMap) :
    (sortByCreatedDesc l).length = l.length := by
  induction l with
  | nil => rfl
  | cons x xs ih =>
      show (insertByCreatedDesc x (sortByCreatedDesc xs)).length = xs.length + 1
      rw [length_insertByCreatedDesc, ih]

/-- C9: every page returned by `get_analytics` is sorted by creation
timestamp non-increasing (newest first): the sort runs over the whole
accumulated set before truncation, so any adjacent pair of returned records
satisfies `createdAt(first) ≥ createdAt(second)`. -/
theorem analytics_page_sorted_desc (t : List AttrMap) (f : AnalyticsFilters)
    (limit : Nat) (tok : Option String) :
    List.Pairwise (fun a b => createdAtD b ≤ createdAtD a)
      ((getAnalytics t f limit tok).emails) := by
  show List.Pairwise (fun a b => createdAtD b ≤ createdAtD a)
    ((getFilteredAnalytics t f limit tok).1.map cleanAnalyticsFields)
  refine List.pairwise_map.mpr ?_
  have h1 := pairwise_sortByCreatedDesc
    ((analyticsLoop t f limit (t.length + 1) [] (parseStartKey tok)).1)
  have h2 : List.Pairwise (fun a b => createdAtD b ≤ createdAtD a)
      ((getFilteredAnalytics t f limit tok).1) :=
    List.Pairwise.sublist (List.take_sublist _ _) h1
  refine h2.imp ?_
  intro a b hab
  rwa [createdAtD_clean, createdAtD_clean]

/-! ### C10 -/

/-- C10: the analytics response reports `hasMore` exactly when a
continuation token is present; when the scan reached the end of the table
(no store cursor), no token is emitted and `hasMore` is false even though
the accumulated matches may exceed the page size — the truncated surplus
(`count = min pageSize accumulated`) is not reachable through any token. -/
theorem analytics_hasMore_iff_token (t : List AttrMap) (f : AnalyticsFilters)
    (limit : Nat) (tok : Option String) :
    ((getAnalytics t f limit tok).hasMore = true ↔
      (getAnalytics t f limit tok).nextToken ≠ none) ∧
    ((analyticsLoop t f limit (t.length + 1) [] (parseStartKey tok)).2 = none →
      (getAnalytics t f limit tok).nextToken = none ∧
      (getAnalytics t f limit tok).hasMore = false) ∧
    (getAnalytics t f limit tok).count =
      min limit (analyticsLoop t f limit (t.length + 1) [] (parseStartKey tok)).1.length := by
  refine ⟨?_, ?_, ?_⟩
  · show ((getFilteredAnalytics t f limit tok).2.isSome = true ↔
      (getFilteredAnalytics t f limit tok).2 ≠ none)
    exact Option.isSome_iff_ne_none
  · intro h
    have htok : (getFilteredAnalytics t f limit tok).2 = none := by
      show (match
          decide (limit <
            (analyticsLoop t f limit (t.length + 1) [] (parseStartKey tok)).1.length) ||
            (analyticsLoop t f limit (t.length + 1) [] (parseStartKey tok)).2.isSome,
          (analyticsLoop t f limit (t.length + 1) [] (parseStartKey tok)).2 with
        | true, some k => some (encodeToken k)
        | _, _ => none) = none
      rw [h]
      cases decide (limit <
          (analyticsLoop t f limit (t.length + 1) [] (parseStartKey tok)).1.length) <;> rfl
    refine ⟨htok, ?_⟩
    show (getFilteredAnalytics t f limit tok).2.isSome = false
    rw [htok]
    rfl
  · show ((sortByCreatedDesc
        (analyticsLoop t f limit (t.length + 1) [] (parseStartKey tok)).1).take
        limit).length = _
    rw [List.length_take, length_sortByCreatedDesc]

theorem analytics_hasMore_iff_token_witness :
    (analyticsLoop
      [sampleEmailRow "1" "2024-01-01T00:00:00", sampleEmailRow "2" "2024-01-03T00:00:00",
        sampleEmailRow "3" "2024-01-02T00:00:00"] {} 1 4 [] (parseStartKey none)).2 = none ∧
    (getAnalytics
      [sampleEmailRow "1" "2024-01-01T00:00:00", sampleEmailRow "2" "2024-01-03T00:00:00",
        sampleEmailRow "3" "2024-01-02T00:00:00"] {} 1 none).nextToken = none ∧
    (getAnalytics
      [sampleEmailRow "1" "2024-01-01T00:00:00", sampleEmailRow "2" "2024-01-03T00:00:00",
        sampleEmailRow "3" "2024-01-02T00:00:00"] {} 1 none).hasMore = false ∧
    1 < (analyticsLoop
      [sampleEmailRow "1" "2024-01-01T00:00:00", sampleEmailRow "2" "2024-01-03T00:00:00",
        sampleEmailRow "3" "2024-01-02T00:00:00"] {} 1 4 [] (parseStartKey none)).1.length :=
  ⟨by decide,
    ((analytics_hasMore_iff_token
      [sampleEmailRow "1" "2024-01-01T00:00:00", sampleEmailRow "2" "2024-01-03T00:00:00",
        sampleEmailRow "3" "2024-01-02T00:00:00"] {} 1 none).2.1 (by decide)).1,
    ((analytics_hasMore_iff_token
      [sampleEmailRow "1" "2024-01-01T00:00:00", sampleEmailRow "2" "2024-01-03T00:00:00",
        sampleEmailRow "3" "2024-01-02T00:00:00"] {} 1 none).2.1 (by decide)).2,
    by decide⟩

/-! ### Pagination machinery (C1, C4) -/

theorem appendMatches_eq (f : Filters) (limit : Nat) :
    ∀ (items users : List AttrMap), users.length < limit →
      appendMatches f limit users items =
        users ++ (items.filter (fun i => matchesAllFilters i f)).take
          (limit - users.length) := by
  intro items
  induction items with
  | nil => intro users _; simp [appendMatches]
  | cons i rest ih =>
      intro users h
      unfold appendMatches
      cases hm : matchesAllFilters i f with
      | false =>
          simp only [hm, Bool.false_eq_true, if_false]
          rw [ih users h, List.filter_cons_of_neg (by simp [hm])]
      | true =>
          simp only [hm, if_true]
          rw [List.filter_cons_of_pos (by simp [hm])]
          by_cases hfull : limit ≤ (users ++ [i]).length
          · rw [if_pos hfull]
            have h1 : limit - users.length = 1 := by
              simp only [List.length_append, List.length_cons, List.length_nil] at hfull
              omega
            rw [h1]
            simp
          · rw [if_neg hfull]
            have h2 : (users ++ [i]).length < limit := by omega
            rw [ih _ h2]
            have h3 : limit - users.length = (limit - (users ++ [i]).length) + 1 := by
              simp only [List.length_append, List.length_cons, List.length_nil]
              simp only [List.length_append, List.length_cons, List.length_nil] at hfull
              omega
            rw [h3, List.take_succ_cons]
            simp

theorem drop_filter_split {α : Type} (l : List α) (g : α → Bool) (p q : Nat)
    (h : p ≤ q) :
    (l.drop p).filter g =
      ((l.drop p).take (q - p)).filter g ++ (l.drop q).filter g := by
  rw [← List.filter_append]
  congr 1
  have h2 : (l.drop p).drop (q - p) = l.drop q := by
    rw [List.drop_drop]
    congr 1
    omega
  rw [← h2, List.take_append_drop]

theorem take_window_split {α : Type} (l : List α) (p q r : Nat) (hpq : p ≤ q)
    (hqr : q ≤ r) :
    (l.drop p).take (r - p) = (l.drop p).take (q - p) ++ (l.drop q).take (r - q) := by
  have h1 : r - p = (q - p) + (r - q) := by omega
  rw [h1, List.take_add]
  congr 2
  rw [List.drop_drop]
  congr 1
  omega

theorem paginationLoop_spec (src : List AttrMap) (serverF : AttrMap → Bool)
    (mult : Nat) (f : Filters) (limit : Nat) :
    ∀ (fuel : Nat) (users : List AttrMap) (cursor : Option Nat),
      ∃ S : List AttrMap,
        (paginationLoop src serverF mult f limit fuel users cursor).1 = users ++ S ∧
        S.Sublist
          (((src.drop (cursor.getD 0)).take
            (cursorStop src.length
              (paginationLoop src serverF mult f limit fuel users cursor).2
              - cursor.getD 0)).filter (userGood f serverF)) ∧
        (∀ q, (paginationLoop src serverF mult f limit fuel users cursor).2 = some q →
          cursor.getD 0 ≤ q) := by
  intro fuel
  induction fuel with
  | zero =>
      intro users cursor
      refine ⟨[], by simp [paginationLoop], List.nil_sublist _, ?_⟩
      intro q hq
      cases cursor with
      | none => simp [paginationLoop] at hq
      | some p =>
          simp only [paginationLoop] at hq
          cases hq
          rfl
  | succ n ih =>
      intro users cursor
      by_cases hlt : users.length < limit
      · by_cases hnk : cursor.getD 0 + min ((limit - users.length) * mult) 100 < src.length
        · have hstep : paginationLoop src serverF mult f limit (n + 1) users cursor =
              paginationLoop src serverF mult f limit n
                (appendMatches f limit users
                  (((src.drop (cursor.getD 0)).take
                    (min ((limit - users.length) * mult) 100)).filter serverF))
                (some (cursor.getD 0 + min ((limit - users.length) * mult) 100)) := by
            unfold paginationLoop
            rw [if_pos hlt, if_pos hnk]
            cases n <;> rfl
          rw [hstep]
          obtain ⟨S2, hres2, hsub2, hq2⟩ :=
            ih (appendMatches f limit users
              (((src.drop (cursor.getD 0)).take
                (min ((limit - users.length) * mult) 100)).filter serverF))
              (some (cursor.getD 0 + min ((limit - users.length) * mult) 100))
          have happ := appendMatches_eq f limit
            (((src.drop (cursor.getD 0)).take
              (min ((limit - users.length) * mult) 100)).filter serverF) users hlt
          have hgood : ((((src.drop (cursor.getD 0)).take
              (min ((limit - users.length) * mult) 100)).filter serverF).filter
              (fun i => matchesAllFilters i f)) =
              ((src.drop (cursor.getD 0)).take
                (min ((limit - users.length) * mult) 100)).filter (userGood f serverF) := by
            rw [List.filter_filter]
            rfl
          refine ⟨((((src.drop (cursor.getD 0)).take
              (min ((limit - users.length) * mult) 100)).filter serverF).filter
              (fun i => matchesAllFilters i f)).take (limit - users.length) ++ S2,
            ?_, ?_, ?_⟩
          · rw [hres2, happ, List.append_assoc]
          · have hqle : cursor.getD 0 + min ((limit - users.length) * mult) 100 ≤
                cursorStop src.length (paginationLoop src serverF mult f limit n
                  (appendMatches f limit users
                    (((src.drop (cursor.getD 0)).take
                      (min ((limit - users.length) * mult) 100)).filter serverF))
                  (some (cursor.getD 0 + min ((limit - users.length) * mult) 100))).2 := by
              cases hc2 : (paginationLoop src serverF mult f limit n
                  (appendMatches f limit users
                    (((src.drop (cursor.getD 0)).take
                      (min ((limit - users.length) * mult) 100)).filter serverF))
                  (some (cursor.getD 0 + min ((limit - users.length) * mult) 100))).2 with
              | none =>
                  show _ ≤ src.length
                  omega
              | some q2 => simpa using hq2 q2 hc2
            rw [take_window_split src (cursor.getD 0)
              (cursor.getD 0 + min ((limit - users.length) * mult) 100) _
              (by omega) hqle, List.filter_append]
            refine List.Sublist.append ?_ ?_
            · have harith : cursor.getD 0 + min ((limit - users.length) * mult) 100 -
                  cursor.getD 0 = min ((limit - users.length) * mult) 100 := by omega
              rw [harith, hgood]
              exact List.take_sublist _ _
            · simpa using hsub2
          · intro q hq
            have := hq2 q hq
            simp at this
            omega
        · have hstep : paginationLoop src serverF mult f limit (n + 1) users cursor =
              (appendMatches f limit users
                (((src.drop (cursor.getD 0)).take
                  (min ((limit - users.length) * mult) 100)).filter serverF), none) := by
            unfold paginationLoop
            rw [if_pos hlt, if_neg hnk]
          rw [hstep]
          have happ := appendMatches_eq f limit
            (((src.drop (cursor.getD 0)).take
              (min ((limit - users.length) * mult) 100)).filter serverF) users hlt
          have hgood : ((((src.drop (cursor.getD 0)).take
              (min ((limit - users.length) * mult) 100)).filter serverF).filter
              (fun i => matchesAllFilters i f)) =
              ((src.drop (cursor.getD 0)).take
                (min ((limit - users.length) * mult) 100)).filter (userGood f serverF) := by
            rw [List.filter_filter]
            rfl
          refine ⟨((((src.drop (cursor.getD 0)).take
              (min ((limit - users.length) * mult) 100)).filter serverF).filter
              (fun i => matchesAllFilters i f)).take (limit - users.length),
            by rw [happ], ?_, by intro q hq; simp at hq⟩
          have hwin : (src.drop (cursor.getD 0)).take
              (cursorStop src.length (none : Option Nat) - cursor.getD 0) =
              src.drop (cursor.getD 0) := by
            apply List.take_of_length_le
            rw [List.length_drop]
            show src.length - cursor.getD 0 ≤ src.length - cursor.getD 0
            exact le_refl _
          show List.Sublist _
            (((src.drop (cursor.getD 0)).take
              (cursorStop src.length (none : Option Nat) - cursor.getD 0)).filter
              (userGood f serverF))
          rw [hwin]
          refine List.Sublist.trans (List.take_sublist _ _) ?_
          rw [hgood]
          exact List.Sublist.filter _ (List.take_sublist _ _)
      · have hstep : paginationLoop src serverF mult f limit (n + 1) users cursor =
            (users, cursor) := by
          unfold paginationLoop
          rw [if_neg hlt]
        rw [hstep]
        refine ⟨[], by simp, List.nil_sublist _, ?_⟩
        intro q hq
        cases cursor with
        | none => simp at hq
        | some p =>
            cases hq
            rfl

theorem filterUsers_eq (t : List AttrMap) (f : Filters) (limit : Nat)
    (tok : Option String) :
    filterUsers t f limit tok =
      ((paginationLoop (strategySrc t f) (strategyServerF f) (strategyMult f) f limit
          ((strategySrc t f).length + 1) [] (parseStartKey tok)).1.map cleanDynamoFields,
        nextTokenOf
          (paginationLoop (strategySrc t f) (strategyServerF f) (strategyMult f) f limit
            ((strategySrc t f).length + 1) [] (parseStartKey tok)).1 limit
          (paginationLoop (strategySrc t f) (strategyServerF f) (strategyMult f) f limit
            ((strategySrc t f).length + 1) [] (parseStartKey tok)).2) := by
  unfold filterUsers strategySrc strategyServerF strategyMult
  cases chooseBestStrategy f with
  | gsiQuery prim sec => rfl
  | scan => rfl

theorem fullPass_eq (t : List AttrMap) (f : Filters) :
    fullPass t f =
      ((strategySrc t f).filter (userGood f (strategyServerF f))).map
        cleanDynamoFields := by
  cases h : chooseBestStrategy f with
  | gsiQuery prim sec =>
      simp only [fullPass, strategySrc, strategyServerF, h]
      congr 1
      apply List.filter_congr
      intro i _
      simp [userGood]
  | scan =>
      simp only [fullPass, strategySrc, strategyServerF, h]
      congr 1
      rw [List.filter_filter]
      rfl

theorem collectUserPages_sublist_aux (t : List AttrMap) (f : Filters) (limit : Nat) :
    ∀ (fuel : Nat) (tok : Option String),
      (collectUserPages t f limit fuel tok).Sublist
        ((((strategySrc t f).drop ((parseStartKey tok).getD 0)).filter
          (userGood f (strategyServerF f))).map cleanDynamoFields) := by
  intro fuel
  induction fuel with
  | zero => intro tok; exact List.nil_sublist _
  | succ n ih =>
      intro tok
      obtain ⟨S, hres1, hsub, hq⟩ := paginationLoop_spec (strategySrc t f)
        (strategyServerF f) (strategyMult f) f limit ((strategySrc t f).length + 1)
        [] (parseStartKey tok)
      show (match filterUsers t f limit tok with
        | (page, none) => page
        | (page, some s) => page ++ collectUserPages t f limit n (some s)).Sublist _
      rw [filterUsers_eq t f limit tok]
      rw [List.nil_append] at hres1
      cases hc : (paginationLoop (strategySrc t f) (strategyServerF f) (strategyMult f)
          f limit ((strategySrc t f).length + 1) [] (parseStartKey tok)).2 with
      | none =>
          show ((paginationLoop (strategySrc t f) (strategyServerF f) (strategyMult f)
            f limit ((strategySrc t f).length + 1) [] (parseStartKey tok)).1.map
              cleanDynamoFields).Sublist _
          rw [hres1]
          refine List.Sublist.map _ (hsub.trans ?_)
          rw [hc]
          exact List.Sublist.filter _ (List.take_sublist _ _)
      | some k =>
          rw [hc] at hsub
          have hkk : (parseStartKey tok).getD 0 ≤ k := hq k hc
          by_cases hlen : (paginationLoop (strategySrc t f) (strategyServerF f)
              (strategyMult f) f limit ((strategySrc t f).length + 1) []
              (parseStartKey tok)).1.length = limit
          · have htok : nextTokenOf (paginationLoop (strategySrc t f) (strategyServerF f)
                (strategyMult f) f limit ((strategySrc t f).length + 1) []
                (parseStartKey tok)).1 limit (some k) = some (encodeToken k) := by
              show (if (paginationLoop (strategySrc t f) (strategyServerF f)
                  (strategyMult f) f limit ((strategySrc t f).length + 1) []
                  (parseStartKey tok)).1.length = limit
                then some (encodeToken k) else none) = some (encodeToken k)
              rw [if_pos hlen]
            rw [htok]
            show ((paginationLoop (strategySrc t f) (strategyServerF f) (strategyMult f)
              f limit ((strategySrc t f).length + 1) [] (parseStartKey tok)).1.map
                cleanDynamoFields ++
              collectUserPages t f limit n (some (encodeToken k))).Sublist _
            have hih := ih (some (encodeToken k))
            have hdec : parseStartKey (some (encodeToken k)) = some k := by
              show decodeToken (encodeToken k) = some k
              exact decode_encode k
            rw [hdec] at hih
            rw [drop_filter_split (strategySrc t f) (userGood f (strategyServerF f))
              ((parseStartKey tok).getD 0) k hkk, List.map_append]
            refine List.Sublist.append ?_ ?_
            · rw [hres1]
              exact List.Sublist.map _ (by simpa [cursorStop] using hsub)
            · simpa using hih
          · have htok : nextTokenOf (paginationLoop (strategySrc t f) (strategyServerF f)
                (strategyMult f) f limit ((strategySrc t f).length + 1) []
                (parseStartKey tok)).1 limit (some k) = none := by
              show (if (paginationLoop (strategySrc t f) (strategyServerF f)
                  (strategyMult f) f limit ((strategySrc t f).length + 1) []
                  (parseStartKey tok)).1.length = limit
                then some (encodeToken k) else none) = none
              rw [if_neg hlen]
            rw [htok]
            show ((paginationLoop (strategySrc t f) (strategyServerF f) (strategyMult f)
              f limit ((strategySrc t f).length + 1) [] (parseStartKey tok)).1.map
                cleanDynamoFields).Sublist _
            rw [hres1]
            refine List.Sublist.map _ (hsub.trans ?_)
            show List.Sublist _ (((strategySrc t f).drop ((parseStartKey tok).getD 0)).filter
              (userGood f (strategyServerF f)))
            exact List.Sublist.filter _ (List.take_sublist _ _)

/-! ### C1 -/

/-- C1 (amended): driving `filter_users` to exhaustion through its
continuation tokens yields pages whose concatenation is an order-preserving
subsequence of one full unpaginated pass with the same filters — zero
overlap — but not necessarily the whole pass: matching items can be skipped
(gap) when a page fills mid-batch or the store reports no cursor. -/
theorem filterUsers_pages_no_overlap (t : List AttrMap) (f : Filters)
    (limit fuel : Nat) (h1 : 1 ≤ limit) (h2 : limit ≤ 100) :
    (collectUserPages t f limit fuel none).Sublist (fullPass t f) := by
  rw [fullPass_eq]
  have h := collectUserPages_sublist_aux t f limit fuel none
  simpa using h

theorem filterUsers_pages_no_overlap_witness :
    (1 ≤ 1 ∧ 1 ≤ 100) ∧
    (collectUserPages [sampleProfile "u1", sampleProfile "u2"] {} 1 5 none).Sublist
      (fullPass [sampleProfile "u1", sampleProfile "u2"] {}) :=
  ⟨⟨by decide, by decide⟩,
    filterUsers_pages_no_overlap [sampleProfile "u1", sampleProfile "u2"] {} 1 5
      (by decide) (by decide)⟩

theorem filterUsers_pagination_gap_cex :
    collectUserPages [sampleProfile "u1", sampleProfile "u2"] {} 1 5 none =
      [cleanDynamoFields (sampleProfile "u1")] ∧
    fullPass [sampleProfile "u1", sampleProfile "u2"] {} =
      [cleanDynamoFields (sampleProfile "u1"), cleanDynamoFields (sampleProfile "u2")] ∧
    collectUserPages [sampleProfile "u1", sampleProfile "u2"] {} 1 5 none ≠
      fullPass [sampleProfile "u1", sampleProfile "u2"] {} := by
  decide

/-! ### C4 -/

theorem getAttr_clean_user (m : AttrMap) (k : String) (h1 : (k == "PK") = false)
    (h2 : (k == "SK") = false) (h3 : startsWithGSI k = false) :
    getAttr (cleanDynamoFields m) k = getAttr m k := by
  unfold cleanDynamoFields
  apply getAttr_filter_of_kept
  intro v
  simp [h1, h2, h3]

theorem matchesAllFilters_clean (m : AttrMap) (f : Filters) :
    matchesAllFilters (cleanDynamoFields m) f = matchesAllFilters m f := by
  unfold matchesAllFilters getNumD
  rw [getAttr_clean_user m "company" (by decide) (by decide) (by decide),
    getAttr_clean_user m "jobTitle" (by decide) (by decide) (by decide),
    getAttr_clean_user m "city" (by decide) (by decide) (by decide),
    getAttr_clean_user m "state" (by decide) (by decide) (by decide),
    getAttr_clean_user m "hostedEventCount" (by decide) (by decide) (by decide),
    getAttr_clean_user m "attendedEventCount" (by decide) (by decide) (by decide)]

/-- C4 (amended): with no recognized indexed filter present, `filter_users`
falls back to a full scan, and every returned row satisfies the residual
predicate `_matches_all_filters` — which enforces company, jobTitle,
city-and-state jointly, and the count ranges, but silently ignores a city
supplied without a state (or a state without a city), so such a filter is
not applied at all. -/
theorem scan_fallback_residual (t : List AttrMap) (f : Filters) (limit : Nat)
    (tok : Option String) (h : availableFilters f = []) :
    chooseBestStrategy f = Strategy.scan ∧
    ∀ r ∈ (filterUsers t f limit tok).1, matchesAllFilters r f = true := by
  have hscan : chooseBestStrategy f = Strategy.scan := by
    unfold chooseBestStrategy
    rw [h]
    rfl
  refine ⟨hscan, ?_⟩
  intro r hr
  rw [filterUsers_eq] at hr
  obtain ⟨S, hres1, hsub, _⟩ := paginationLoop_spec (strategySrc t f)
    (strategyServerF f) (strategyMult f) f limit ((strategySrc t f).length + 1)
    [] (parseStartKey tok)
  rw [List.nil_append] at hres1
  rw [hres1] at hr
  obtain ⟨raw, hraw, hclean⟩ := List.mem_map.mp hr
  have hrawIn : raw ∈ ((strategySrc t f).drop ((parseStartKey tok).getD 0)).filter
      (userGood f (strategyServerF f)) := by
    have h2 := hsub.subset hraw
    exact (List.Sublist.filter (userGood f (strategyServerF f))
      (List.take_sublist _ _)).subset h2
  have hgood : userGood f (strategyServerF f) raw = true :=
    (List.mem_filter.mp hrawIn).2
  have hm : matchesAllFilters raw f = true := by
    simp only [userGood, Bool.and_eq_true] at hgood
    exact hgood.1
  rw [← hclean, matchesAllFilters_clean]
  exact hm

theorem scan_fallback_city_only_cex :
    chooseBestStrategy { city := some "Austin" } = Strategy.scan ∧
    matchesAllFilters
      (createUserItem "u9" ⟨"Bo", "Xu", "5", "b@c.d", none, none, none, none,
        some "Denver", some "CO"⟩) { city := some "Austin" } = true ∧
    (filterUsers [createUserItem "u9" ⟨"Bo", "Xu", "5", "b@c.d", none, none, none,
        none, some "Denver", some "CO"⟩] { city := some "Austin" } 10 none).1 =
      [cleanDynamoFields (createUserItem "u9" ⟨"Bo", "Xu", "5", "b@c.d", none, none,
        none, none, some "Denver", some "CO"⟩)] ∧
    getS (cleanDynamoFields (createUserItem "u9" ⟨"Bo", "Xu", "5", "b@c.d", none,
      none, none, none, some "Denver", some "CO"⟩)) "city" = some "Denver" := by
  decide

/-! ### Store machinery (C2, C5, C6) -/

theorem string_append_left_cancel {s a b : String} (h : s ++ a = s ++ b) : a = b := by
  have h2 := congrArg String.data h
  rw [String.data_append, String.data_append] at h2
  exact String.ext (List.append_cancel_left h2)

theorem string_append_ne {s : String} {a b : String} (h : a ≠ b) : s ++ a ≠ s ++ b :=
  fun hc => h (string_append_left_cancel hc)

theorem event_pk_ne_user_pk (e u : String) : "EVENT#" ++ e ≠ "USER#" ++ u := by
  intro h
  have h2 : ('E' :: 'V' :: 'E' :: 'N' :: 'T' :: '#' :: e.data) =
      ('U' :: 'S' :: 'E' :: 'R' :: '#' :: u.data) := congrArg String.data h
  simp at h2

theorem host_sk_ne_detail (a : String) : "HOST#" ++ a ≠ "DETAIL" := by
  intro h
  have h2 : ('H' :: 'O' :: 'S' :: 'T' :: '#' :: a.data) =
      ['D', 'E', 'T', 'A', 'I', 'L'] := congrArg String.data h
  simp at h2

theorem attends_sk_ne_profile (e : String) : "ATTENDS#" ++ e ≠ "PROFILE" := by
  intro h
  have h2 : ('A' :: 'T' :: 'T' :: 'E' :: 'N' :: 'D' :: 'S' :: '#' :: e.data) =
      ['P', 'R', 'O', 'F', 'I', 'L', 'E'] := congrArg String.data h
  simp at h2

theorem detail_ne_profile : "DETAIL" ≠ "PROFILE" := by decide

theorem getAttr_setAttr_self (m : AttrMap) (k : String) (v : AttrVal) :
    getAttr (setAttr m k v) k = some v := by
  induction m with
  | nil => simp [setAttr, getAttr]
  | cons e es ih =>
      unfold setAttr
      by_cases he : e.1 = k
      · rw [if_pos he]
        simp [getAttr, List.find?_cons]
      · rw [if_neg he]
        unfold getAttr at ih ⊢
        rw [List.find?_cons_of_neg _ (by simp [he])]
        exact ih

theorem find?_cons_pos {α : Type} (p : α → Bool) (a : α) (l : List α)
    (h : p a = true) : (a :: l).find? p = some a := by
  simp [List.find?_cons, h]

theorem find?_cons_neg {α : Type} (p : α → Bool) (a : α) (l : List α)
    (h : p a = false) : (a :: l).find? p = l.find? p := by
  simp [List.find?_cons, h]

theorem getAttr_setAttr_ne (m : AttrMap) (k : String) (v : AttrVal) (k2 : String)
    (h : ¬(k2 = k)) : getAttr (setAttr m k v) k2 = getAttr m k2 := by
  induction m with
  | nil =>
      simp only [setAttr, getAttr, List.find?]
      have hkv : ((k, v).1 == k2) = false := by
        simp
        intro hc
        exact h hc.symm
      simp [hkv]
  | cons e es ih =>
      unfold setAttr
      by_cases he : e.1 = k
      · rw [if_pos he]
        unfold getAttr
        rw [find?_cons_neg (fun e : String × AttrVal => e.1 == k2) _ _
            (by simp [he]; intro hc; exact h hc.symm),
          find?_cons_neg (fun e : String × AttrVal => e.1 == k2) _ _
            (by simp [he]; intro hc; exact h hc.symm)]
      · rw [if_neg he]
        unfold getAttr at ih ⊢
        cases hk2 : (e.1 == k2) with
        | true =>
            rw [find?_cons_pos (fun e : String × AttrVal => e.1 == k2) _ _ hk2,
              find?_cons_pos (fun e : String × AttrVal => e.1 == k2) _ _ hk2]
        | false =>
            rw [find?_cons_neg (fun e : String × AttrVal => e.1 == k2) _ _ hk2,
              find?_cons_neg (fun e : String × AttrVal => e.1 == k2) _ _ hk2]
            exact ih

theorem getNumD_addToAttr (m : AttrMap) (k : String) (i : Int) :
    getNumD (addToAttr k i m) k 0 = getNumD m k 0 + i := by
  unfold addToAttr getNumD
  rw [getAttr_setAttr_self]

theorem getRow_append (t u : List AttrMap) (pk sk : String) :
    getRow (t ++ u) pk sk = (getRow t pk sk).or (getRow u pk sk) := by
  unfold getRow
  exact List.find?_append

theorem putRow_fresh (t : List AttrMap) (item : AttrMap)
    (h : getRow t (getSD item "PK" "") (getSD item "SK" "") = none) :
    putRow t item = t ++ [item] := by
  induction t with
  | nil => rfl
  | cons r rs ih =>
      unfold putRow
      unfold getRow at h
      cases hk : rowKeyIs r (getSD item "PK" "") (getSD item "SK" "") with
      | true =>
          exfalso
          rw [find?_cons_pos
            (fun r => rowKeyIs r (getSD item "PK" "") (getSD item "SK" "")) _ _ hk] at h
          cases h
      | false =>
          rw [find?_cons_neg
            (fun r => rowKeyIs r (getSD item "PK" "") (getSD item "SK" "")) _ _ hk] at h
          rw [if_neg (by simp)]
          rw [ih h]
          rfl

theorem rowKeyIs_iff (r : AttrMap) (pk sk : String) :
    rowKeyIs r pk sk = true ↔
      getAttr r "PK" = some (AttrVal.s pk) ∧ getAttr r "SK" = some (AttrVal.s sk) := by
  simp [rowKeyIs, Bool.and_eq_true, beq_iff_eq]

theorem rowKeyIs_false_of_ne (r : AttrMap) (pk sk pk0 sk0 : String)
    (hPK : getAttr r "PK" = some (AttrVal.s pk0))
    (hSK : getAttr r "SK" = some (AttrVal.s sk0))
    (hne : ¬(pk = pk0 ∧ sk = sk0)) : rowKeyIs r pk sk = false := by
  cases hb : rowKeyIs r pk sk with
  | false => rfl
  | true =>
      exfalso
      obtain ⟨h1, h2⟩ := (rowKeyIs_iff r pk sk).mp hb
      rw [hPK] at h1
      rw [hSK] at h2
      exact hne ⟨(AttrVal.s.inj (Option.some.inj h1)).symm,
        (AttrVal.s.inj (Option.some.inj h2)).symm⟩

theorem getRow_updateRow_self (t : List AttrMap) (pk sk : String)
    (upd : AttrMap → AttrMap)
    (hupd : ∀ m, getAttr (upd m) "PK" = getAttr m "PK" ∧
      getAttr (upd m) "SK" = getAttr m "SK")
    (r : AttrMap) (h : getRow t pk sk = some r) :
    getRow (updateRow t pk sk upd) pk sk = some (upd r) := by
  induction t with
  | nil => simp [getRow] at h
  | cons x xs ih =>
      unfold getRow at h ⊢
      unfold updateRow
      cases hk : rowKeyIs x pk sk with
      | true =>
          rw [find?_cons_pos (fun r : AttrMap => rowKeyIs r pk sk) _ _ hk] at h
          have hx : x = r := Option.some.inj h
          subst hx
          have hk2 : rowKeyIs (upd x) pk sk = true := by
            rw [rowKeyIs_iff] at hk ⊢
            rw [(hupd x).1, (hupd x).2]
            exact hk
          rw [if_pos rfl]
          rw [find?_cons_pos (fun r : AttrMap => rowKeyIs r pk sk) _ _ hk2]
      | false =>
          rw [find?_cons_neg (fun r : AttrMap => rowKeyIs r pk sk) _ _ hk] at h
          rw [if_neg (by simp)]
          rw [find?_cons_neg (fun r : AttrMap => rowKeyIs r pk sk) _ _ hk]
          exact ih h

theorem getRow_updateRow_ne (t : List AttrMap) (pk sk pk2 sk2 : String)
    (upd : AttrMap → AttrMap)
    (hupd : ∀ m, getAttr (upd m) "PK" = getAttr m "PK" ∧
      getAttr (upd m) "SK" = getAttr m "SK")
    (hne : ¬(pk2 = pk ∧ sk2 = sk)) :
    getRow (updateRow t pk sk upd) pk2 sk2 = getRow t pk2 sk2 := by
  induction t with
  | nil =>
      show getRow [upd [("PK", AttrVal.s pk), ("SK", AttrVal.s sk)]] pk2 sk2 =
        getRow [] pk2 sk2
      have hPK : getAttr (upd [("PK", AttrVal.s pk), ("SK", AttrVal.s sk)]) "PK" =
          some (AttrVal.s pk) := by
        rw [(hupd _).1]
        rfl
      have hSK : getAttr (upd [("PK", AttrVal.s pk), ("SK", AttrVal.s sk)]) "SK" =
          some (AttrVal.s sk) := by
        rw [(hupd _).2]
        rfl
      unfold getRow
      rw [find?_cons_neg (fun r : AttrMap => rowKeyIs r pk2 sk2) _ _
        (rowKeyIs_false_of_ne _ _ _ _ _ hPK hSK hne)]
  | cons x xs ih =>
      unfold updateRow
      cases hk : rowKeyIs x pk sk with
      | true =>
          rw [if_pos rfl]
          have hxkeys := (rowKeyIs_iff x pk sk).mp hk
          have hfx : rowKeyIs x pk2 sk2 = false :=
            rowKeyIs_false_of_ne _ _ _ _ _ hxkeys.1 hxkeys.2 hne
          have hfux : rowKeyIs (upd x) pk2 sk2 = false :=
            rowKeyIs_false_of_ne _ _ _ _ _ (by rw [(hupd x).1]; exact hxkeys.1)
              (by rw [(hupd x).2]; exact hxkeys.2) hne
          unfold getRow
          rw [find?_cons_neg (fun r : AttrMap => rowKeyIs r pk2 sk2) _ _ hfux,
            find?_cons_neg (fun r : AttrMap => rowKeyIs r pk2 sk2) _ _ hfx]
      | false =>
          rw [if_neg (by simp)]
          unfold getRow at ih ⊢
          cases hk2 : rowKeyIs x pk2 sk2 with
          | true =>
              rw [find?_cons_pos (fun r : AttrMap => rowKeyIs r pk2 sk2) _ _ hk2,
                find?_cons_pos (fun r : AttrMap => rowKeyIs r pk2 sk2) _ _ hk2]
          | false =>
              rw [find?_cons_neg (fun r : AttrMap => rowKeyIs r pk2 sk2) _ _ hk2,
                find?_cons_neg (fun r : AttrMap => rowKeyIs r pk2 sk2) _ _ hk2]
              exact ih

theorem addToAttr_keys (k : String) (i : Int) (h1 : ¬("PK" = k))
    (h2 : ¬("SK" = k)) :
    ∀ m, getAttr (addToAttr k i m) "PK" = getAttr m "PK" ∧
      getAttr (addToAttr k i m) "SK" = getAttr m "SK" := by
  intro m
  exact ⟨getAttr_setAttr_ne _ _ _ _ h1, getAttr_setAttr_ne _ _ _ _ h2⟩

theorem setAttr_keys (k : String) (v : AttrVal) (h1 : ¬("PK" = k))
    (h2 : ¬("SK" = k)) :
    ∀ m, getAttr (setAttr m k v) "PK" = getAttr m "PK" ∧
      getAttr (setAttr m k v) "SK" = getAttr m "SK" := by
  intro m
  exact ⟨getAttr_setAttr_ne _ _ _ _ h1, getAttr_setAttr_ne _ _ _ _ h2⟩

theorem inc_hosted_self (t : List AttrMap) (uid : String) (r : AttrMap)
    (h : getRow t ("USER#" ++ uid) "PROFILE" = some r) :
    getRow (incrementHostedCount t uid) ("USER#" ++ uid) "PROFILE" =
      some (setAttr (addToAttr "hostedEventCount" 1 r) "GSI_UsersByHostedCount_SK"
        (AttrVal.s ("HOSTED_COUNT#" ++ pad10 (getNumD r "hostedEventCount" 0 + 1) ++
          "#USER#" ++ uid))) := by
  have h1 := getRow_updateRow_self t ("USER#" ++ uid) "PROFILE"
    (addToAttr "hostedEventCount" 1)
    (addToAttr_keys _ 1 (by decide) (by decide)) r h
  have hcount : (match getRow (updateRow t ("USER#" ++ uid) "PROFILE"
      (addToAttr "hostedEventCount" 1)) ("USER#" ++ uid) "PROFILE" with
    | some r2 => getNumD r2 "hostedEventCount" 0
    | none => 0) = getNumD r "hostedEventCount" 0 + 1 := by
    rw [h1]
    simp [getNumD_addToAttr]
  simp only [incrementHostedCount]
  rw [hcount]
  exact getRow_updateRow_self _ ("USER#" ++ uid) "PROFILE" _
    (setAttr_keys _ _ (by decide) (by decide)) _ h1

theorem inc_attended_self (t : List AttrMap) (uid : String) (r : AttrMap)
    (h : getRow t ("USER#" ++ uid) "PROFILE" = some r) :
    getRow (incrementAttendedCount t uid) ("USER#" ++ uid) "PROFILE" =
      some (setAttr
        (setAttr (addToAttr "attendedEventCount" 1 r) "GSI_UsersByAttendedCount_SK"
          (AttrVal.s ("ATTENDED_COUNT#" ++ pad10 (getNumD r "attendedEventCount" 0 + 1)
            ++ "#USER#" ++ uid)))
        "GSI_UsersByActivity_SK"
        (AttrVal.s ("ATTENDED_COUNT#" ++ pad10 (getNumD r "attendedEventCount" 0 + 1)
          ++ "#USER#" ++ uid))) := by
  have h1 := getRow_updateRow_self t ("USER#" ++ uid) "PROFILE"
    (addToAttr "attendedEventCount" 1)
    (addToAttr_keys _ 1 (by decide) (by decide)) r h
  have hcount : (match getRow (updateRow t ("USER#" ++ uid) "PROFILE"
      (addToAttr "attendedEventCount" 1)) ("USER#" ++ uid) "PROFILE" with
    | some r2 => getNumD r2 "attendedEventCount" 0
    | none => 0) = getNumD r "attendedEventCount" 0 + 1 := by
    rw [h1]
    simp [getNumD_addToAttr]
  simp only [incrementAttendedCount]
  rw [hcount]
  refine getRow_updateRow_self _ ("USER#" ++ uid) "PROFILE" _ ?_ _ h1
  intro m
  constructor
  · rw [getAttr_setAttr_ne _ _ _ _ (by decide), getAttr_setAttr_ne _ _ _ _ (by decide)]
  · rw [getAttr_setAttr_ne _ _ _ _ (by decide), getAttr_setAttr_ne _ _ _ _ (by decide)]

theorem inc_hosted_ne (t : List AttrMap) (uid pk2 sk2 : String)
    (hne : ¬(pk2 = "USER#" ++ uid ∧ sk2 = "PROFILE")) :
    getRow (incrementHostedCount t uid) pk2 sk2 = getRow t pk2 sk2 := by
  simp only [incrementHostedCount]
  rw [getRow_updateRow_ne _ _ _ _ _ _
      (setAttr_keys _ _ (by decide) (by decide)) hne,
    getRow_updateRow_ne _ _ _ _ _ _
      (addToAttr_keys _ 1 (by decide) (by decide)) hne]

theorem inc_attended_ne (t : List AttrMap) (uid pk2 sk2 : String)
    (hne : ¬(pk2 = "USER#" ++ uid ∧ sk2 = "PROFILE")) :
    getRow (incrementAttendedCount t uid) pk2 sk2 = getRow t pk2 sk2 := by
  simp only [incrementAttendedCount]
  have hkeys : ∀ m : AttrMap,
      getAttr (setAttr (setAttr m "GSI_UsersByAttendedCount_SK"
        (AttrVal.s ("ATTENDED_COUNT#" ++ pad10 (match getRow (updateRow t
          ("USER#" ++ uid) "PROFILE" (addToAttr "attendedEventCount" 1))
          ("USER#" ++ uid) "PROFILE" with
          | some r => getNumD r "attendedEventCount" 0
          | none => 0) ++ "#USER#" ++ uid)))
        "GSI_UsersByActivity_SK"
        (AttrVal.s ("ATTENDED_COUNT#" ++ pad10 (match getRow (updateRow t
          ("USER#" ++ uid) "PROFILE" (addToAttr "attendedEventCount" 1))
          ("USER#" ++ uid) "PROFILE" with
          | some r => getNumD r "attendedEventCount" 0
          | none => 0) ++ "#USER#" ++ uid))) "PK" = getAttr m "PK" ∧
      getAttr (setAttr (setAttr m "GSI_UsersByAttendedCount_SK"
        (AttrVal.s ("ATTENDED_COUNT#" ++ pad10 (match getRow (updateRow t
          ("USER#" ++ uid) "PROFILE" (addToAttr "attendedEventCount" 1))
          ("USER#" ++ uid) "PROFILE" with
          | some r => getNumD r "attendedEventCount" 0
          | none => 0) ++ "#USER#" ++ uid)))
        "GSI_UsersByActivity_SK"
        (AttrVal.s ("ATTENDED_COUNT#" ++ pad10 (match getRow (updateRow t
          ("USER#" ++ uid) "PROFILE" (addToAttr "attendedEventCount" 1))
          ("USER#" ++ uid) "PROFILE" with
          | some r => getNumD r "attendedEventCount" 0
          | none => 0) ++ "#USER#" ++ uid))) "SK" = getAttr m "SK" := by
    intro m
    constructor
    · rw [getAttr_setAttr_ne _ _ _ _ (by decide), getAttr_setAttr_ne _ _ _ _ (by decide)]
    · rw [getAttr_setAttr_ne _ _ _ _ (by decide), getAttr_setAttr_ne _ _ _ _ (by decide)]
  rw [getRow_updateRow_ne _ _ _ _ _ _ hkeys hne,
    getRow_updateRow_ne _ _ _ _ _ _
      (addToAttr_keys _ 1 (by decide) (by decide)) hne]

theorem foldl_inc_hosted_ne (hs : List String) :
    ∀ (t : List AttrMap) (pk2 sk2 : String),
      (∀ h ∈ hs, ¬(pk2 = "USER#" ++ h ∧ sk2 = "PROFILE")) →
      getRow (hs.foldl incrementHostedCount t) pk2 sk2 = getRow t pk2 sk2 := by
  induction hs with
  | nil => intro t _ _ _; rfl
  | cons h rest ih =>
      intro t pk2 sk2 hn
      rw [List.foldl_cons,
        ih _ _ _ (fun x hx => hn x (List.mem_cons_of_mem h hx)),
        inc_hosted_ne t h pk2 sk2 (hn h (List.mem_cons_self h rest))]

theorem foldl_inc_attended_ne (hs : List String) :
    ∀ (t : List AttrMap) (pk2 sk2 : String),
      (∀ h ∈ hs, ¬(pk2 = "USER#" ++ h ∧ sk2 = "PROFILE")) →
      getRow (hs.foldl incrementAttendedCount t) pk2 sk2 = getRow t pk2 sk2 := by
  induction hs with
  | nil => intro t _ _ _; rfl
  | cons h rest ih =>
      intro t pk2 sk2 hn
      rw [List.foldl_cons,
        ih _ _ _ (fun x hx => hn x (List.mem_cons_of_mem h hx)),
        inc_attended_ne t h pk2 sk2 (hn h (List.mem_cons_self h rest))]

theorem foldl_inc_hosted_self (hs : List String) :
    ∀ (t : List AttrMap) (h : String) (r : AttrMap),
      hs.Nodup → h ∈ hs → getRow t ("USER#" ++ h) "PROFILE" = some r →
      getRow (hs.foldl incrementHostedCount t) ("USER#" ++ h) "PROFILE" =
        some (setAttr (addToAttr "hostedEventCount" 1 r) "GSI_UsersByHostedCount_SK"
          (AttrVal.s ("HOSTED_COUNT#" ++ pad10 (getNumD r "hostedEventCount" 0 + 1) ++
            "#USER#" ++ h))) := by
  induction hs with
  | nil => intro t h r _ hmem _; simp at hmem
  | cons h0 rest ih =>
      intro t h r hnd hmem hrow
      rw [List.foldl_cons]
      rcases List.mem_cons.mp hmem with rfl | hmem2
      · have hnotin : h ∉ rest := (List.nodup_cons.mp hnd).1
        rw [foldl_inc_hosted_ne rest _ _ _ ?_]
        · exact inc_hosted_self t h r hrow
        · intro x hx hc
          exact hnotin (by rw [string_append_left_cancel hc.1]; exact hx)
      · have hne : h ≠ h0 := fun hc => (List.nodup_cons.mp hnd).1 (hc ▸ hmem2)
        have hrow2 : getRow (incrementHostedCount t h0) ("USER#" ++ h) "PROFILE" =
            some r := by
          rw [inc_hosted_ne t h0 _ _ (fun hc => hne (string_append_left_cancel hc.1))]
          exact hrow
        exact ih _ h r (List.nodup_cons.mp hnd).2 hmem2 hrow2

theorem foldl_inc_attended_self (hs : List String) :
    ∀ (t : List AttrMap) (h : String) (r : AttrMap),
      hs.Nodup → h ∈ hs → getRow t ("USER#" ++ h) "PROFILE" = some r →
      getRow (hs.foldl incrementAttendedCount t) ("USER#" ++ h) "PROFILE" =
        some (setAttr
          (setAttr (addToAttr "attendedEventCount" 1 r) "GSI_UsersByAttendedCount_SK"
            (AttrVal.s ("ATTENDED_COUNT#" ++
              pad10 (getNumD r "attendedEventCount" 0 + 1) ++ "#USER#" ++ h)))
          "GSI_UsersByActivity_SK"
          (AttrVal.s ("ATTENDED_COUNT#" ++
            pad10 (getNumD r "attendedEventCount" 0 + 1) ++ "#USER#" ++ h))) := by
  induction hs with
  | nil => intro t h r _ hmem _; simp at hmem
  | cons h0 rest ih =>
      intro t h r hnd hmem hrow
      rw [List.foldl_cons]
      rcases List.mem_cons.mp hmem with rfl | hmem2
      · have hnotin : h ∉ rest := (List.nodup_cons.mp hnd).1
        rw [foldl_inc_attended_ne rest _ _ _ ?_]
        · exact inc_attended_self t h r hrow
        · intro x hx hc
          exact hnotin (by rw [string_append_left_cancel hc.1]; exact hx)
      · have hne : h ≠ h0 := fun hc => (List.nodup_cons.mp hnd).1 (hc ▸ hmem2)
        have hrow2 : getRow (incrementAttendedCount t h0) ("USER#" ++ h) "PROFILE" =
            some r := by
          rw [inc_attended_ne t h0 _ _ (fun hc => hne (string_append_left_cancel hc.1))]
          exact hrow
        exact ih _ h r (List.nodup_cons.mp hnd).2 hmem2 hrow2

theorem getRow_none_of_all (l : List AttrMap) (pk sk : String)
    (hall : ∀ r ∈ l, rowKeyIs r pk sk = false) : getRow l pk sk = none := by
  unfold getRow
  rw [List.find?_eq_none]
  intro x hx
  simp [hall x hx]

theorem eventTransact_conds (eid : String) (d : EventCreate) (t : List AttrMap)
    (husers : ∀ uid ∈ d.hostIds ++ d.attendeeIds,
      (getRow t ("USER#" ++ uid) "PROFILE").isSome = true)
    (hhost : ∀ h ∈ d.hostIds, getRow t ("EVENT#" ++ eid) ("HOST#" ++ h) = none)
    (hatt : ∀ a ∈ d.attendeeIds, getRow t ("USER#" ++ a) ("ATTENDS#" ++ eid) = none) :
    (eventTransactItems eid d).all (transactCondOk t) = true := by
  rw [List.all_eq_true]
  intro item hitem
  unfold eventTransactItems at hitem
  rcases List.mem_append.mp hitem with h1 | hA
  · rcases List.mem_append.mp h1 with h0 | hH
    · rw [List.mem_singleton] at h0
      subst h0
      rfl
    · obtain ⟨h, hh, hin⟩ := List.mem_flatMap.mp hH
      rcases List.mem_cons.mp hin with rfl | hin2
      · show (getRow t ("EVENT#" ++ eid) ("HOST#" ++ h)).isNone = true
        rw [hhost h hh]
        rfl
      · rw [List.mem_singleton] at hin2
        subst hin2
        show (getRow t ("USER#" ++ h) "PROFILE").isSome = true
        exact husers h (List.mem_append_left _ hh)
  · obtain ⟨a, ha, hin⟩ := List.mem_flatMap.mp hA
    rcases List.mem_cons.mp hin with rfl | hin2
    · show (getRow t ("USER#" ++ a) ("ATTENDS#" ++ eid)).isNone = true
      rw [hatt a ha]
      rfl
    · rw [List.mem_singleton] at hin2
      subst hin2
      show (getRow t ("USER#" ++ a) "PROFILE").isSome = true
      exact husers a (List.mem_append_right _ ha)

theorem foldl_apply_hosts (eid : String) (hs : List String) :
    ∀ (t0 : List AttrMap), hs.Nodup →
      (∀ h ∈ hs, getRow t0 ("EVENT#" ++ eid) ("HOST#" ++ h) = none) →
      List.foldl applyTransactItem t0
        (hs.flatMap (fun h =>
          [TransactItem.putItem (hostItem eid h) true,
           TransactItem.conditionCheck ("USER#" ++ h) "PROFILE"])) =
        t0 ++ hs.map (hostItem eid) := by
  induction hs with
  | nil => intro t0 _ _; simp
  | cons h rest ih =>
      intro t0 hnd hfresh
      rw [List.flatMap_cons, List.foldl_append]
      show List.foldl applyTransactItem (putRow t0 (hostItem eid h)) _ = _
      rw [putRow_fresh t0 (hostItem eid h) (hfresh h (List.mem_cons_self h rest))]
      have hnotin : h ∉ rest := (List.nodup_cons.mp hnd).1
      have hfr : ∀ h2 ∈ rest,
          getRow (t0 ++ [hostItem eid h]) ("EVENT#" ++ eid) ("HOST#" ++ h2) = none := by
        intro h2 hh2
        rw [getRow_append, hfresh h2 (List.mem_cons_of_mem _ hh2), Option.none_or]
        apply getRow_none_of_all
        intro r hr
        rw [List.mem_singleton] at hr
        subst hr
        apply rowKeyIs_false_of_ne (hostItem eid h) ("EVENT#" ++ eid)
          ("HOST#" ++ h2) ("EVENT#" ++ eid) ("HOST#" ++ h) rfl rfl
        intro hc
        exact hnotin (by
          rw [← string_append_left_cancel hc.2]
          exact hh2)
      rw [ih _ (List.nodup_cons.mp hnd).2 hfr]
      simp

theorem foldl_apply_attendees (eid : String) (as : List String) :
    ∀ (t0 : List AttrMap), as.Nodup →
      (∀ a ∈ as, getRow t0 ("USER#" ++ a) ("ATTENDS#" ++ eid) = none) →
      List.foldl applyTransactItem t0
        (as.flatMap (fun a =>
          [TransactItem.putItem (attendeeItem eid a) true,
           TransactItem.conditionCheck ("USER#" ++ a) "PROFILE"])) =
        t0 ++ as.map (attendeeItem eid) := by
  induction as with
  | nil => intro t0 _ _; simp
  | cons a rest ih =>
      intro t0 hnd hfresh
      rw [List.flatMap_cons, List.foldl_append]
      show List.foldl applyTransactItem (putRow t0 (attendeeItem eid a)) _ = _
      rw [putRow_fresh t0 (attendeeItem eid a) (hfresh a (List.mem_cons_self a rest))]
      have hnotin : a ∉ rest := (List.nodup_cons.mp hnd).1
      have hfr : ∀ a2 ∈ rest,
          getRow (t0 ++ [attendeeItem eid a]) ("USER#" ++ a2) ("ATTENDS#" ++ eid) =
            none := by
        intro a2 ha2
        rw [getRow_append, hfresh a2 (List.mem_cons_of_mem _ ha2), Option.none_or]
        apply getRow_none_of_all
        intro r hr
        rw [List.mem_singleton] at hr
        subst hr
        apply rowKeyIs_false_of_ne (attendeeItem eid a) ("USER#" ++ a2)
          ("ATTENDS#" ++ eid) ("USER#" ++ a) ("ATTENDS#" ++ eid) rfl rfl
        intro hc
        exact hnotin (by
          rw [← string_append_left_cancel hc.1]
          exact ha2)
      rw [ih _ (List.nodup_cons.mp hnd).2 hfr]
      simp

theorem createEvent_success_table (eid : String) (d : EventCreate) (t : List AttrMap)
    (husers : ∀ uid ∈ d.hostIds ++ d.attendeeIds,
      (getRow t ("USER#" ++ uid) "PROFILE").isSome = true)
    (hndH : d.hostIds.Nodup) (hndA : d.attendeeIds.Nodup)
    (hdetail : getRow t ("EVENT#" ++ eid) "DETAIL" = none)
    (hhost : ∀ h ∈ d.hostIds, getRow t ("EVENT#" ++ eid) ("HOST#" ++ h) = none)
    (hatt : ∀ a ∈ d.attendeeIds, getRow t ("USER#" ++ a) ("ATTENDS#" ++ eid) = none) :
    transactWriteItems t (eventTransactItems eid d) =
      some (((t ++ [eventDetailItem eid d]) ++ d.hostIds.map (hostItem eid)) ++
        d.attendeeIds.map (attendeeItem eid)) := by
  unfold transactWriteItems
  rw [if_pos (eventTransact_conds eid d t husers hhost hatt)]
  congr 1
  unfold eventTransactItems
  rw [List.foldl_append, List.foldl_append]
  have h1 : List.foldl applyTransactItem t
      [TransactItem.putItem (eventDetailItem eid d) false] =
      t ++ [eventDetailItem eid d] := by
    show putRow t (eventDetailItem eid d) = _
    exact putRow_fresh t _ hdetail
  rw [h1]
  have hfr1 : ∀ h ∈ d.hostIds,
      getRow (t ++ [eventDetailItem eid d]) ("EVENT#" ++ eid) ("HOST#" ++ h) = none := by
    intro h hh
    rw [getRow_append, hhost h hh, Option.none_or]
    apply getRow_none_of_all
    intro r hr
    rw [List.mem_singleton] at hr
    subst hr
    apply rowKeyIs_false_of_ne (eventDetailItem eid d) ("EVENT#" ++ eid)
      ("HOST#" ++ h) ("EVENT#" ++ eid) "DETAIL" rfl rfl
    intro hc
    exact host_sk_ne_detail h hc.2
  rw [foldl_apply_hosts eid d.hostIds _ hndH hfr1]
  have hfr2 : ∀ a ∈ d.attendeeIds,
      getRow ((t ++ [eventDetailItem eid d]) ++ d.hostIds.map (hostItem eid))
        ("USER#" ++ a) ("ATTENDS#" ++ eid) = none := by
    intro a ha
    rw [getRow_append, getRow_append, hatt a ha, Option.none_or]
    have h2 : getRow [eventDetailItem eid d] ("USER#" ++ a) ("ATTENDS#" ++ eid) =
        none := by
      apply getRow_none_of_all
      intro r hr
      rw [List.mem_singleton] at hr
      subst hr
      apply rowKeyIs_false_of_ne (eventDetailItem eid d) ("USER#" ++ a)
        ("ATTENDS#" ++ eid) ("EVENT#" ++ eid) "DETAIL" rfl rfl
      intro hc
      exact event_pk_ne_user_pk eid a hc.1.symm
    rw [h2, Option.none_or]
    apply getRow_none_of_all
    intro r hr
    obtain ⟨h, _, rfl⟩ := List.mem_map.mp hr
    apply rowKeyIs_false_of_ne (hostItem eid h) ("USER#" ++ a)
      ("ATTENDS#" ++ eid) ("EVENT#" ++ eid) ("HOST#" ++ h) rfl rfl
    intro hc
    exact event_pk_ne_user_pk eid a hc.1.symm
  rw [foldl_apply_attendees eid d.attendeeIds _ hndA hfr2]

theorem getRow_cons_neg (x : AttrMap) (l : List AttrMap) (pk sk : String)
    (h : rowKeyIs x pk sk = false) : getRow (x :: l) pk sk = getRow l pk sk := by
  unfold getRow
  exact find?_cons_neg (fun r : AttrMap => rowKeyIs r pk sk) _ _ h

theorem getRow_cons_pos (x : AttrMap) (l : List AttrMap) (pk sk : String)
    (h : rowKeyIs x pk sk = true) : getRow (x :: l) pk sk = some x := by
  unfold getRow
  exact find?_cons_pos (fun r : AttrMap => rowKeyIs r pk sk) _ _ h

theorem getRow_append_left (t u : List AttrMap) (pk sk : String) (r : AttrMap)
    (h : getRow t pk sk = some r) : getRow (t ++ u) pk sk = some r := by
  rw [getRow_append, h]
  rfl

theorem getRow_append_right (t u : List AttrMap) (pk sk : String)
    (h : getRow t pk sk = none) : getRow (t ++ u) pk sk = getRow u pk sk := by
  rw [getRow_append, h, Option.none_or]

theorem getRow_map_hostItem (eid : String) (hs : List String) (h : String)
    (hmem : h ∈ hs) :
    getRow (hs.map (hostItem eid)) ("EVENT#" ++ eid) ("HOST#" ++ h) =
      some (hostItem eid h) := by
  induction hs with
  | nil => simp at hmem
  | cons h0 rest ih =>
      rw [List.map_cons]
      by_cases he : h0 = h
      · subst he
        exact getRow_cons_pos _ _ _ _ ((rowKeyIs_iff _ _ _).mpr ⟨rfl, rfl⟩)
      · have hmem2 : h ∈ rest := by
          rcases List.mem_cons.mp hmem with rfl | hmem2
          · exact absurd rfl he
          · exact hmem2
        rw [getRow_cons_neg _ _ _ _
          (rowKeyIs_false_of_ne (hostItem eid h0) ("EVENT#" ++ eid) ("HOST#" ++ h)
            ("EVENT#" ++ eid) ("HOST#" ++ h0) rfl rfl
            (fun hc => he (string_append_left_cancel hc.2).symm))]
        exact ih hmem2

theorem getRow_map_attendeeItem (eid : String) (as : List String) (a : String)
    (hmem : a ∈ as) :
    getRow (as.map (attendeeItem eid)) ("USER#" ++ a) ("ATTENDS#" ++ eid) =
      some (attendeeItem eid a) := by
  induction as with
  | nil => simp at hmem
  | cons a0 rest ih =>
      rw [List.map_cons]
      by_cases he : a0 = a
      · subst he
        exact getRow_cons_pos _ _ _ _ ((rowKeyIs_iff _ _ _).mpr ⟨rfl, rfl⟩)
      · have hmem2 : a ∈ rest := by
          rcases List.mem_cons.mp hmem with rfl | hmem2
          · exact absurd rfl he
          · exact hmem2
        rw [getRow_cons_neg _ _ _ _
          (rowKeyIs_false_of_ne (attendeeItem eid a0) ("USER#" ++ a)
            ("ATTENDS#" ++ eid) ("USER#" ++ a0) ("ATTENDS#" ++ eid) rfl rfl
            (fun hc => he (string_append_left_cancel hc.1).symm))]
        exact ih hmem2

theorem createEvent_missing_user (eid : String) (d : EventCreate) (t : List AttrMap)
    (h : ∃ uid, uid ∈ d.hostIds ++ d.attendeeIds ∧
      getRow t ("USER#" ++ uid) "PROFILE" = none) :
    createEvent eid d t =
      (t, Except.error "Transaction failed: User not found or duplicate entry") := by
  obtain ⟨uid, huid, hnone⟩ := h
  have hitem : TransactItem.conditionCheck ("USER#" ++ uid) "PROFILE" ∈
      eventTransactItems eid d := by
    unfold eventTransactItems
    rcases List.mem_append.mp huid with hh | ha
    · exact List.mem_append_left _
        (List.mem_append_right _ (List.mem_flatMap.mpr ⟨uid, hh, by simp⟩))
    · exact List.mem_append_right _ (List.mem_flatMap.mpr ⟨uid, ha, by simp⟩)
  have hfail : (eventTransactItems eid d).all (transactCondOk t) = false := by
    cases hb : (eventTransactItems eid d).all (transactCondOk t) with
    | false => rfl
    | true =>
        exfalso
        have := List.all_eq_true.mp hb _ hitem
        show False
        rw [show transactCondOk t (TransactItem.conditionCheck ("USER#" ++ uid)
          "PROFILE") = (getRow t ("USER#" ++ uid) "PROFILE").isSome from rfl] at this
        rw [hnone] at this
        cases this
  have hnone2 : transactWriteItems t (eventTransactItems eid d) = none := by
    unfold transactWriteItems
    rw [if_neg (by simp [hfail])]
  unfold createEvent
  rw [hnone2]

theorem zeroRun_length (k : Nat) : (zeroRun k).length = k := by
  show (List.replicate k '0').length = k
  exact List.length_replicate k _

theorem numRepr_length (n : Nat) (hn : n ≠ 0) :
    (numRepr n).length = (Nat.digits 10 n).length := by
  unfold numRepr
  rw [if_neg hn]
  show (((Nat.digits 10 n).reverse).map digitChar).length = _
  rw [List.length_map, List.length_reverse]

theorem numRepr_len_le (n : Nat) (h : n < 10 ^ 10) : (numRepr n).length ≤ 10 := by
  by_cases h0 : n = 0
  · subst h0
    decide
  · rw [numRepr_length n h0, Nat.digits_len 10 n (by norm_num) h0]
    have hlog := (Nat.lt_pow_iff_log_lt (by norm_num : 1 < 10) h0).mp h
    omega

theorem pad10_length (v : Int) (h0 : 0 ≤ v) (h1 : v < 10 ^ 10) :
    (pad10 v).length = 10 := by
  unfold pad10
  rw [if_neg (by omega)]
  rw [String.length_append, zeroRun_length]
  have hv : v.natAbs < 10 ^ 10 := by omega
  have hlen := numRepr_len_le v.natAbs hv
  omega

theorem getNumD_setAttr_ne (m : AttrMap) (k : String) (v : AttrVal) (k2 : String)
    (d : Int) (h : ¬(k2 = k)) : getNumD (setAttr m k v) k2 d = getNumD m k2 d := by
  unfold getNumD
  rw [getAttr_setAttr_ne _ _ _ _ h]

theorem createEvent_success_run (eid : String) (d : EventCreate) (t : List AttrMap)
    (husers : ∀ uid ∈ d.hostIds ++ d.attendeeIds,
      (getRow t ("USER#" ++ uid) "PROFILE").isSome = true)
    (hndH : d.hostIds.Nodup) (hndA : d.attendeeIds.Nodup)
    (hdetail : getRow t ("EVENT#" ++ eid) "DETAIL" = none)
    (hhost : ∀ h ∈ d.hostIds, getRow t ("EVENT#" ++ eid) ("HOST#" ++ h) = none)
    (hatt : ∀ a ∈ d.attendeeIds, getRow t ("USER#" ++ a) ("ATTENDS#" ++ eid) = none) :
    createEvent eid d t =
      (d.attendeeIds.foldl incrementAttendedCount
        (d.hostIds.foldl incrementHostedCount
          (((t ++ [eventDetailItem eid d]) ++ d.hostIds.map (hostItem eid)) ++
            d.attendeeIds.map (attendeeItem eid))),
        Except.ok ⟨eid, d.slug, d.title, d.description, d.startAt, d.endAt, d.venue,
          d.maxCapacity, d.owner, d.attendeeIds.length⟩) := by
  unfold createEvent
  rw [createEvent_success_table eid d t husers hndH hndA hdetail hhost hatt]

/-! ### C2 -/

/-- C2: the create-event transaction carries an existence check for every
referenced host and attendee, so a missing person cancels the whole
transaction — nothing is persisted and the failure surfaces as the single
translated message; conversely, with every referenced person present and
distinct ids, the event row and every host and attendee edge row are all
persisted together. -/
theorem createEvent_atomicity (eid : String) (d : EventCreate) (t : List AttrMap) :
    ((∃ uid, uid ∈ d.hostIds ++ d.attendeeIds ∧
        getRow t ("USER#" ++ uid) "PROFILE" = none) →
      createEvent eid d t =
        (t, Except.error "Transaction failed: User not found or duplicate entry")) ∧
    ((∀ uid ∈ d.hostIds ++ d.attendeeIds,
        (getRow t ("USER#" ++ uid) "PROFILE").isSome = true) →
      d.hostIds.Nodup → d.attendeeIds.Nodup →
      getRow t ("EVENT#" ++ eid) "DETAIL" = none →
      (∀ h ∈ d.hostIds, getRow t ("EVENT#" ++ eid) ("HOST#" ++ h) = none) →
      (∀ a ∈ d.attendeeIds, getRow t ("USER#" ++ a) ("ATTENDS#" ++ eid) = none) →
      ∃ t3, createEvent eid d t = (t3, Except.ok ⟨eid, d.slug, d.title,
          d.description, d.startAt, d.endAt, d.venue, d.maxCapacity, d.owner,
          d.attendeeIds.length⟩) ∧
        getRow t3 ("EVENT#" ++ eid) "DETAIL" = some (eventDetailItem eid d) ∧
        (∀ h ∈ d.hostIds,
          getRow t3 ("EVENT#" ++ eid) ("HOST#" ++ h) = some (hostItem eid h)) ∧
        (∀ a ∈ d.attendeeIds,
          getRow t3 ("USER#" ++ a) ("ATTENDS#" ++ eid) = some (attendeeItem eid a))) := by
  constructor
  · exact createEvent_missing_user eid d t
  · intro husers hndH hndA hdetail hhost hatt
    refine ⟨_, createEvent_success_run eid d t husers hndH hndA hdetail hhost hatt,
      ?_, ?_, ?_⟩
    · rw [foldl_inc_attended_ne d.attendeeIds _ ("EVENT#" ++ eid) "DETAIL"
        (fun a _ hc => event_pk_ne_user_pk eid a hc.1),
        foldl_inc_hosted_ne d.hostIds _ ("EVENT#" ++ eid) "DETAIL"
        (fun h _ hc => event_pk_ne_user_pk eid h hc.1)]
      apply getRow_append_left
      apply getRow_append_left
      rw [getRow_append_right _ _ _ _ hdetail]
      exact getRow_cons_pos _ _ _ _ ((rowKeyIs_iff _ _ _).mpr ⟨rfl, rfl⟩)
    · intro h hh
      rw [foldl_inc_attended_ne d.attendeeIds _ ("EVENT#" ++ eid) ("HOST#" ++ h)
        (fun a _ hc => event_pk_ne_user_pk eid a hc.1),
        foldl_inc_hosted_ne d.hostIds _ ("EVENT#" ++ eid) ("HOST#" ++ h)
        (fun h2 _ hc => event_pk_ne_user_pk eid h2 hc.1)]
      apply getRow_append_left
      rw [getRow_append_right]
      · exact getRow_map_hostItem eid _ h hh
      · rw [getRow_append_right _ _ _ _ (hhost h hh)]
        apply getRow_none_of_all
        intro r hr
        rw [List.mem_singleton] at hr
        subst hr
        exact rowKeyIs_false_of_ne (eventDetailItem eid d) ("EVENT#" ++ eid)
          ("HOST#" ++ h) ("EVENT#" ++ eid) "DETAIL" rfl rfl
          (fun hc => host_sk_ne_detail h hc.2)
    · intro a ha
      rw [foldl_inc_attended_ne d.attendeeIds _ ("USER#" ++ a) ("ATTENDS#" ++ eid)
        (fun a2 _ hc => attends_sk_ne_profile eid hc.2),
        foldl_inc_hosted_ne d.hostIds _ ("USER#" ++ a) ("ATTENDS#" ++ eid)
        (fun h _ hc => attends_sk_ne_profile eid hc.2)]
      rw [getRow_append_right]
      · exact getRow_map_attendeeItem eid _ a ha
      · rw [getRow_append_right]
        · apply getRow_none_of_all
          intro r hr
          obtain ⟨h, _, rfl⟩ := List.mem_map.mp hr
          exact rowKeyIs_false_of_ne (hostItem eid h) ("USER#" ++ a)
            ("ATTENDS#" ++ eid) ("EVENT#" ++ eid) ("HOST#" ++ h) rfl rfl
            (fun hc => event_pk_ne_user_pk eid a hc.1.symm)
        · rw [getRow_append_right _ _ _ _ (hatt a ha)]
          apply getRow_none_of_all
          intro r hr
          rw [List.mem_singleton] at hr
          subst hr
          exact rowKeyIs_false_of_ne (eventDetailItem eid d) ("USER#" ++ a)
            ("ATTENDS#" ++ eid) ("EVENT#" ++ eid) "DETAIL" rfl rfl
            (fun hc => event_pk_ne_user_pk eid a hc.1.symm)

theorem createEvent_atomicity_witness :
    createEvent "e1"
      ⟨"s", "t", "d", "2024-01-01T00:00:00", "2024-01-01T02:00:00", "v", 5, "o",
        ["zz"], ["u2"]⟩ [sampleProfile "u1", sampleProfile "u2"] =
      ([sampleProfile "u1", sampleProfile "u2"],
        Except.error "Transaction failed: User not found or duplicate entry") ∧
    ∃ t3, createEvent "e1"
        ⟨"s", "t", "d", "2024-01-01T00:00:00", "2024-01-01T02:00:00", "v", 5, "o",
          ["u1"], ["u2"]⟩ [sampleProfile "u1", sampleProfile "u2"] =
        (t3, Except.ok ⟨"e1", "s", "t", "d", "2024-01-01T00:00:00",
          "2024-01-01T02:00:00", "v", 5, "o", 1⟩) ∧
      getRow t3 ("EVENT#" ++ "e1") "DETAIL" =
        some (eventDetailItem "e1" ⟨"s", "t", "d", "2024-01-01T00:00:00",
          "2024-01-01T02:00:00", "v", 5, "o", ["u1"], ["u2"]⟩) ∧
      (∀ h ∈ ["u1"], getRow t3 ("EVENT#" ++ "e1") ("HOST#" ++ h) =
        some (hostItem "e1" h)) ∧
      (∀ a ∈ ["u2"], getRow t3 ("USER#" ++ a) ("ATTENDS#" ++ "e1") =
        some (attendeeItem "e1" a)) :=
  ⟨(createEvent_atomicity "e1" _ _).1 ⟨"zz", by decide, by decide⟩,
    (createEvent_atomicity "e1"
      ⟨"s", "t", "d", "2024-01-01T00:00:00", "2024-01-01T02:00:00", "v", 5, "o",
        ["u1"], ["u2"]⟩ [sampleProfile "u1", sampleProfile "u2"]).2
      (by decide) (by decide) (by decide) (by decide) (by decide) (by decide)⟩

/-! ### C5 -/

/-- C5: after a successful create-event with all referenced persons existing
and all ids distinct, each host's `hostedEventCount` is exactly one more than
before and each attendee's `attendedEventCount` is exactly one more than
before (so successive gatherings accumulate), and the rewritten activity
projection sort keys embed the new counter value through the zero-padded
format, which renders any value below 10^10 as exactly 10 digits. -/
theorem createEvent_counter_increments (eid : String) (d : EventCreate)
    (t : List AttrMap)
    (husers : ∀ uid ∈ d.hostIds ++ d.attendeeIds,
      (getRow t ("USER#" ++ uid) "PROFILE").isSome = true)
    (hnd : (d.hostIds ++ d.attendeeIds).Nodup)
    (hdetail : getRow t ("EVENT#" ++ eid) "DETAIL" = none)
    (hhost : ∀ h ∈ d.hostIds, getRow t ("EVENT#" ++ eid) ("HOST#" ++ h) = none)
    (hatt : ∀ a ∈ d.attendeeIds, getRow t ("USER#" ++ a) ("ATTENDS#" ++ eid) = none) :
    (∃ t3, createEvent eid d t = (t3, Except.ok ⟨eid, d.slug, d.title,
        d.description, d.startAt, d.endAt, d.venue, d.maxCapacity, d.owner,
        d.attendeeIds.length⟩) ∧
      (∀ h ∈ d.hostIds, ∀ r, getRow t ("USER#" ++ h) "PROFILE" = some r →
        ∃ r2, getRow t3 ("USER#" ++ h) "PROFILE" = some r2 ∧
          getNumD r2 "hostedEventCount" 0 = getNumD r "hostedEventCount" 0 + 1 ∧
          getAttr r2 "GSI_UsersByHostedCount_SK" = some (AttrVal.s ("HOSTED_COUNT#" ++
            pad10 (getNumD r "hostedEventCount" 0 + 1) ++ "#USER#" ++ h))) ∧
      (∀ a ∈ d.attendeeIds, ∀ r, getRow t ("USER#" ++ a) "PROFILE" = some r →
        ∃ r2, getRow t3 ("USER#" ++ a) "PROFILE" = some r2 ∧
          getNumD r2 "attendedEventCount" 0 = getNumD r "attendedEventCount" 0 + 1 ∧
          getAttr r2 "GSI_UsersByAttendedCount_SK" = some (AttrVal.s
            ("ATTENDED_COUNT#" ++ pad10 (getNumD r "attendedEventCount" 0 + 1) ++
              "#USER#" ++ a)) ∧
          getAttr r2 "GSI_UsersByActivity_SK" = some (AttrVal.s
            ("ATTENDED_COUNT#" ++ pad10 (getNumD r "attendedEventCount" 0 + 1) ++
              "#USER#" ++ a)))) ∧
    (∀ v : Int, 0 ≤ v → v < 10 ^ 10 → (pad10 v).length = 10) := by
  have hndH : d.hostIds.Nodup := (List.nodup_append.mp hnd).1
  have hndA : d.attendeeIds.Nodup := (List.nodup_append.mp hnd).2.1
  have hdisj : ∀ x ∈ d.hostIds, x ∉ d.attendeeIds := by
    intro x hx hx2
    exact (List.nodup_append.mp hnd).2.2 hx hx2
  constructor
  · refine ⟨_, createEvent_success_run eid d t husers hndH hndA hdetail hhost hatt,
      ?_, ?_⟩
    · intro h hh r hr
      have hT1 : getRow (((t ++ [eventDetailItem eid d]) ++
          d.hostIds.map (hostItem eid)) ++ d.attendeeIds.map (attendeeItem eid))
          ("USER#" ++ h) "PROFILE" = some r :=
        getRow_append_left _ _ _ _ _ (getRow_append_left _ _ _ _ _
          (getRow_append_left _ _ _ _ _ hr))
      have hbump := foldl_inc_hosted_self d.hostIds _ h r hndH hh hT1
      refine ⟨setAttr (addToAttr "hostedEventCount" 1 r) "GSI_UsersByHostedCount_SK"
        (AttrVal.s ("HOSTED_COUNT#" ++ pad10 (getNumD r "hostedEventCount" 0 + 1) ++
          "#USER#" ++ h)), ?_, ?_, ?_⟩
      · rw [foldl_inc_attended_ne d.attendeeIds _ ("USER#" ++ h) "PROFILE"
          (fun a ha hc => hdisj h hh ((string_append_left_cancel hc.1) ▸ ha))]
        exact hbump
      · rw [getNumD_setAttr_ne _ _ _ _ _ (by decide), getNumD_addToAttr]
      · exact getAttr_setAttr_self _ _ _
    · intro a ha r hr
      have hT1 : getRow (((t ++ [eventDetailItem eid d]) ++
          d.hostIds.map (hostItem eid)) ++ d.attendeeIds.map (attendeeItem eid))
          ("USER#" ++ a) "PROFILE" = some r :=
        getRow_append_left _ _ _ _ _ (getRow_append_left _ _ _ _ _
          (getRow_append_left _ _ _ _ _ hr))
      have hpre : getRow (d.hostIds.foldl incrementHostedCount
          (((t ++ [eventDetailItem eid d]) ++ d.hostIds.map (hostItem eid)) ++
            d.attendeeIds.map (attendeeItem eid))) ("USER#" ++ a) "PROFILE" =
          some r := by
        rw [foldl_inc_hosted_ne d.hostIds _ ("USER#" ++ a) "PROFILE"
          (fun h hhh hc => hdisj h hhh ((string_append_left_cancel hc.1) ▸ ha))]
        exact hT1
      have hbump := foldl_inc_attended_self d.attendeeIds _ a r hndA ha hpre
      refine ⟨setAttr
        (setAttr (addToAttr "attendedEventCount" 1 r) "GSI_UsersByAttendedCount_SK"
          (AttrVal.s ("ATTENDED_COUNT#" ++ pad10 (getNumD r "attendedEventCount" 0 + 1)
            ++ "#USER#" ++ a)))
        "GSI_UsersByActivity_SK"
        (AttrVal.s ("ATTENDED_COUNT#" ++ pad10 (getNumD r "attendedEventCount" 0 + 1)
          ++ "#USER#" ++ a)), hbump, ?_, ?_, ?_⟩
      · rw [getNumD_setAttr_ne _ _ _ _ _ (by decide),
          getNumD_setAttr_ne _ _ _ _ _ (by decide), getNumD_addToAttr]
      · rw [getAttr_setAttr_ne _ _ _ _ (by decide)]
        exact getAttr_setAttr_self _ _ _
      · exact getAttr_setAttr_self _ _ _
  · exact pad10_length

theorem createEvent_counter_increments_witness :
    (∃ t3, createEvent "e1"
        ⟨"s", "t", "d", "2024-01-01T00:00:00", "2024-01-01T02:00:00", "v", 5, "o",
          ["u1"], ["u2"]⟩ [sampleProfile "u1", sampleProfile "u2"] =
        (t3, Except.ok ⟨"e1", "s", "t", "d", "2024-01-01T00:00:00",
          "2024-01-01T02:00:00", "v", 5, "o", 1⟩) ∧
      (∀ h ∈ ["u1"], ∀ r,
        getRow [sampleProfile "u1", sampleProfile "u2"] ("USER#" ++ h) "PROFILE" =
          some r →
        ∃ r2, getRow t3 ("USER#" ++ h) "PROFILE" = some r2 ∧
          getNumD r2 "hostedEventCount" 0 = getNumD r "hostedEventCount" 0 + 1 ∧
          getAttr r2 "GSI_UsersByHostedCount_SK" = some (AttrVal.s ("HOSTED_COUNT#" ++
            pad10 (getNumD r "hostedEventCount" 0 + 1) ++ "#USER#" ++ h))) ∧
      (∀ a ∈ ["u2"], ∀ r,
        getRow [sampleProfile "u1", sampleProfile "u2"] ("USER#" ++ a) "PROFILE" =
          some r →
        ∃ r2, getRow t3 ("USER#" ++ a) "PROFILE" = some r2 ∧
          getNumD r2 "attendedEventCount" 0 = getNumD r "attendedEventCount" 0 + 1 ∧
          getAttr r2 "GSI_UsersByAttendedCount_SK" = some (AttrVal.s
            ("ATTENDED_COUNT#" ++ pad10 (getNumD r "attendedEventCount" 0 + 1) ++
              "#USER#" ++ a)) ∧
          getAttr r2 "GSI_UsersByActivity_SK" = some (AttrVal.s
            ("ATTENDED_COUNT#" ++ pad10 (getNumD r "attendedEventCount" 0 + 1) ++
              "#USER#" ++ a)))) ∧
    (pad10 2).length = 10 :=
  ⟨(createEvent_counter_increments "e1"
      ⟨"s", "t", "d", "2024-01-01T00:00:00", "2024-01-01T02:00:00", "v", 5, "o",
        ["u1"], ["u2"]⟩ [sampleProfile "u1", sampleProfile "u2"]
      (by decide) (by decide) (by decide) (by decide) (by decide)).1,
    (createEvent_counter_increments "e1"
      ⟨"s", "t", "d", "2024-01-01T00:00:00", "2024-01-01T02:00:00", "v", 5, "o",
        ["u1"], ["u2"]⟩ [sampleProfile "u1", sampleProfile "u2"]
      (by decide) (by decide) (by decide) (by decide) (by decide)).2
      2 (by decide) (by decide)⟩

/-! ### C6 -/

theorem paginationLoop_complete (src : List AttrMap) (serverF : AttrMap → Bool)
    (mult : Nat) (hmult : 1 ≤ mult) (f : Filters) (limit : Nat) :
    ∀ (fuel : Nat) (users : List AttrMap) (cursor : Option Nat),
      users.length +
        ((src.drop (cursor.getD 0)).filter (userGood f serverF)).length ≤ limit →
      src.length - cursor.getD 0 < fuel →
      (paginationLoop src serverF mult f limit fuel users cursor).1 =
        users ++ (src.drop (cursor.getD 0)).filter (userGood f serverF) := by
  intro fuel
  induction fuel with
  | zero =>
      intro users cursor _ hfuel
      exact absurd hfuel (by omega)
  | succ n ih =>
      intro users cursor hcnt hfuel
      by_cases hlt : users.length < limit
      · have happ := appendMatches_eq f limit
          (((src.drop (cursor.getD 0)).take
            (min ((limit - users.length) * mult) 100)).filter serverF) users hlt
        have hgood : ((((src.drop (cursor.getD 0)).take
            (min ((limit - users.length) * mult) 100)).filter serverF).filter
            (fun i => matchesAllFilters i f)) =
            ((src.drop (cursor.getD 0)).take
              (min ((limit - users.length) * mult) 100)).filter
              (userGood f serverF) := by
          rw [List.filter_filter]
          rfl
        have hsubcnt : (((src.drop (cursor.getD 0)).take
            (min ((limit - users.length) * mult) 100)).filter
            (userGood f serverF)).length ≤ limit - users.length := by
          have hs : (((src.drop (cursor.getD 0)).take
              (min ((limit - users.length) * mult) 100)).filter
              (userGood f serverF)).Sublist
              ((src.drop (cursor.getD 0)).filter (userGood f serverF)) :=
            List.Sublist.filter _ (List.take_sublist _ _)
          have := hs.length_le
          omega
        by_cases hnk : cursor.getD 0 + min ((limit - users.length) * mult) 100 <
            src.length
        · have hstep : paginationLoop src serverF mult f limit (n + 1) users cursor =
              paginationLoop src serverF mult f limit n
                (appendMatches f limit users
                  (((src.drop (cursor.getD 0)).take
                    (min ((limit - users.length) * mult) 100)).filter serverF))
                (some (cursor.getD 0 + min ((limit - users.length) * mult) 100)) := by
            unfold paginationLoop
            rw [if_pos hlt, if_pos hnk]
            cases n <;> rfl
          rw [hstep]
          have hsplit := drop_filter_split src (userGood f serverF) (cursor.getD 0)
            (cursor.getD 0 + min ((limit - users.length) * mult) 100) (by omega)
          have harith : cursor.getD 0 + min ((limit - users.length) * mult) 100 -
              cursor.getD 0 = min ((limit - users.length) * mult) 100 := by omega
          rw [harith] at hsplit
          have hL1 : 1 ≤ min ((limit - users.length) * mult) 100 := by
            have h1 : 1 ≤ limit - users.length := by omega
            have h2 : 1 * 1 ≤ (limit - users.length) * mult := Nat.mul_le_mul h1 hmult
            omega
          rw [ih _ _ ?_ ?_]
          · rw [happ, hgood,
              List.take_of_length_le hsubcnt]
            show users ++ _ ++ _ = _
            rw [List.append_assoc]
            congr 1
            exact hsplit.symm
          · rw [happ, hgood, List.take_of_length_le hsubcnt]
            rw [hsplit] at hcnt
            simp only [Option.getD_some, List.length_append] at hcnt ⊢
            omega
          · simp only [Option.getD_some]
            omega
        · have hstep : paginationLoop src serverF mult f limit (n + 1) users cursor =
              (appendMatches f limit users
                (((src.drop (cursor.getD 0)).take
                  (min ((limit - users.length) * mult) 100)).filter serverF), none) := by
            unfold paginationLoop
            rw [if_pos hlt, if_neg hnk]
          rw [hstep]
          show appendMatches f limit users _ = _
          rw [happ, hgood]
          have hwhole : (src.drop (cursor.getD 0)).take
              (min ((limit - users.length) * mult) 100) = src.drop (cursor.getD 0) := by
            apply List.take_of_length_le
            rw [List.length_drop]
            omega
          rw [hwhole, List.take_of_length_le (by omega)]
      · have h0 : ((src.drop (cursor.getD 0)).filter (userGood f serverF)).length = 0 := by
          omega
        have hstep : paginationLoop src serverF mult f limit (n + 1) users cursor =
            (users, cursor) := by
          unfold paginationLoop
          rw [if_neg hlt]
        rw [hstep]
        rw [List.length_eq_zero.mp h0]
        simp

theorem strategyMult_pos (f : Filters) : 1 ≤ strategyMult f := by
  cases h : chooseBestStrategy f <;> simp [strategyMult, h]

theorem filterUsers_complete (t : List AttrMap) (f : Filters) (limit : Nat)
    (hcnt : ((strategySrc t f).filter (userGood f (strategyServerF f))).length ≤
      limit) :
    (filterUsers t f limit none).1 =
      ((strategySrc t f).filter (userGood f (strategyServerF f))).map
        cleanDynamoFields := by
  rw [filterUsers_eq]
  show (paginationLoop (strategySrc t f) (strategyServerF f) (strategyMult f) f limit
    ((strategySrc t f).length + 1) [] (parseStartKey none)).1.map cleanDynamoFields = _
  rw [show parseStartKey none = (none : Option Nat) from rfl]
  rw [paginationLoop_complete (strategySrc t f) (strategyServerF f) (strategyMult f)
    (strategyMult_pos f) f limit ((strategySrc t f).length + 1) [] none
    (by simpa using hcnt) (by simp)]
  simp

theorem buildEmailItems_length (campaignId subject now : String)
    (utmC utmS utmM : Option String) (idGen : Nat → String) :
    ∀ (users : List AttrMap) (i : Nat),
      (buildEmailItems campaignId subject now utmC utmS utmM idGen users i).length =
        users.length := by
  intro users
  induction users with
  | nil => intro i; rfl
  | cons u us ih =>
      intro i
      show (buildEmailItems campaignId subject now utmC utmS utmM idGen us
        (i + 1)).length + 1 = us.length + 1
      rw [ih (i + 1)]

theorem buildEmailItems_props (campaignId subject now : String)
    (utmC utmS utmM : Option String) (idGen : Nat → String) :
    ∀ (users : List AttrMap) (i : Nat),
      ∀ r ∈ buildEmailItems campaignId subject now utmC utmS utmM idGen users i,
        getAttr r "status" = some (AttrVal.s "queued") ∧
        getAttr r "campaignId" = some (AttrVal.s campaignId) := by
  intro users
  induction users with
  | nil => intro i r hr; simp [buildEmailItems] at hr
  | cons u us ih =>
      intro i r hr
      rcases List.mem_cons.mp hr with rfl | hr2
      · exact ⟨rfl, rfl⟩
      · exact ih (i + 1) r hr2

theorem emailItemsLoop_shape (campaignId subject now : String)
    (utmC utmS utmM : Option String) (idGen : Nat → String)
    (hinj : ∀ j k, idGen j = idGen k → j = k) :
    ∀ (users : List AttrMap) (i : Nat) (t : List AttrMap),
      (∀ j, i ≤ j → getRow t ("EMAIL#" ++ idGen j) "ANALYTICS" = none) →
      (emailItemsLoop campaignId subject now utmC utmS utmM idGen users i t).2 =
        t ++ buildEmailItems campaignId subject now utmC utmS utmM idGen users i := by
  intro users
  induction users with
  | nil => intro i t _; simp [emailItemsLoop, buildEmailItems]
  | cons u us ih =>
      intro i t hfresh
      show (emailItemsLoop campaignId subject now utmC utmS utmM idGen us (i + 1)
        (putRow t (emailAnalyticsItem u (idGen i) campaignId subject now
          utmC utmS utmM))).2 = _
      rw [putRow_fresh t
        (emailAnalyticsItem u (idGen i) campaignId subject now utmC utmS utmM)
        (hfresh i (le_refl i))]
      rw [ih (i + 1) _ ?_]
      · rw [List.append_assoc]
        rfl
      · intro j hj
        rw [getRow_append_right _ _ _ _ (hfresh j (by omega))]
        apply getRow_none_of_all
        intro r hr
        rw [List.mem_singleton] at hr
        subst hr
        apply rowKeyIs_false_of_ne
          (emailAnalyticsItem u (idGen i) campaignId subject now utmC utmS utmM)
          ("EMAIL#" ++ idGen j) "ANALYTICS" ("EMAIL#" ++ idGen i) "ANALYTICS" rfl rfl
        intro hc
        have : j = i := hinj j i (string_append_left_cancel hc.1)
        omega

/-- C6 (amended): a campaign dispatch fetches its recipients through a single
`filter_users` call with the default page size 50, so when the filter matches
K persons with K at most 50, exactly K `EmailSendRecord` rows are created —
all in status `queued`, all under the one campaign id generated for the call
— and the response reports `queuedCount = K`; beyond 50 matches the surplus
recipients get no record (see the counterexample). -/
theorem sendBulkEmail_queued_records (req : EmailSendRequest) (cid : String)
    (idGen : Nat → String) (now : String) (t : List AttrMap)
    (hK : ((strategySrc t (buildEmailFilters req)).filter
      (userGood (buildEmailFilters req)
        (strategyServerF (buildEmailFilters req)))).length ≤ 50)
    (hfresh : ∀ j, getRow t ("EMAIL#" ++ idGen j) "ANALYTICS" = none)
    (hinj : ∀ j k, idGen j = idGen k → j = k)
    (hcid : ∀ r ∈ t, ¬(getAttr r "campaignId" = some (AttrVal.s cid))) :
    (sendBulkEmail req cid idGen now t).2.emailsQueued =
      ((strategySrc t (buildEmailFilters req)).filter
        (userGood (buildEmailFilters req)
          (strategyServerF (buildEmailFilters req)))).length ∧
    countCampaign (sendBulkEmail req cid idGen now t).1 cid =
      ((strategySrc t (buildEmailFilters req)).filter
        (userGood (buildEmailFilters req)
          (strategyServerF (buildEmailFilters req)))).length ∧
    (∀ r ∈ (sendBulkEmail req cid idGen now t).1,
      getAttr r "campaignId" = some (AttrVal.s cid) →
        getAttr r "status" = some (AttrVal.s "queued")) ∧
    (sendBulkEmail req cid idGen now t).2.campaignId = cid := by
  have husers := filterUsers_complete t (buildEmailFilters req) 50 hK
  have hshape := emailItemsLoop_shape cid req.subject now req.utmCampaign
    req.utmSource req.utmMedium idGen hinj
    (filterUsers t (buildEmailFilters req) 50 none).1 0 t (fun j _ => hfresh j)
  have hq : (sendBulkEmail req cid idGen now t).2.emailsQueued =
      (filterUsers t (buildEmailFilters req) 50 none).1.length := rfl
  have htab : (sendBulkEmail req cid idGen now t).1 =
      t ++ buildEmailItems cid req.subject now req.utmCampaign req.utmSource
        req.utmMedium idGen (filterUsers t (buildEmailFilters req) 50 none).1 0 := by
    show (emailItemsLoop cid req.subject now req.utmCampaign req.utmSource
      req.utmMedium idGen (filterUsers t (buildEmailFilters req) 50 none).1 0 t).2 = _
    exact hshape
  refine ⟨?_, ?_, ?_, rfl⟩
  · rw [hq, husers, List.length_map]
  · rw [htab]
    unfold countCampaign
    rw [List.filter_append, List.length_append]
    rw [List.filter_eq_nil_iff.mpr (fun r hr => by simpa using hcid r hr)]
    rw [List.filter_eq_self.mpr (fun r hr => by
      simp [(buildEmailItems_props cid req.subject now req.utmCampaign req.utmSource
        req.utmMedium idGen _ 0 r hr).2])]
    rw [buildEmailItems_length, husers, List.length_map]
    simp
  · intro r hr hcamp
    rw [htab] at hr
    rcases List.mem_append.mp hr with hrT | hrN
    · exact absurd hcamp (hcid r hrT)
    · exact (buildEmailItems_props cid req.subject now req.utmCampaign req.utmSource
        req.utmMedium idGen _ 0 r hrN).1

theorem sendBulkEmail_queued_records_witness :
    (sendBulkEmail ⟨"hello", "body", none, some "crm", some "email", none, none,
      none, none, none, none, none, none⟩ "c9" numRepr "2024-01-01T00:00:00"
      [sampleProfile "u1"]).2.emailsQueued =
      ((strategySrc [sampleProfile "u1"]
        (buildEmailFilters ⟨"hello", "body", none, some "crm", some "email", none,
          none, none, none, none, none, none, none⟩)).filter
        (userGood (buildEmailFilters ⟨"hello", "body", none, some "crm", some "email",
          none, none, none, none, none, none, none, none⟩)
          (strategyServerF (buildEmailFilters ⟨"hello", "body", none, some "crm",
            some "email", none, none, none, none, none, none, none, none⟩)))).length ∧
    countCampaign (sendBulkEmail ⟨"hello", "body", none, some "crm", some "email",
      none, none, none, none, none, none, none, none⟩ "c9" numRepr
      "2024-01-01T00:00:00" [sampleProfile "u1"]).1 "c9" =
      ((strategySrc [sampleProfile "u1"]
        (buildEmailFilters ⟨"hello", "body", none, some "crm", some "email", none,
          none, none, none, none, none, none, none⟩)).filter
        (userGood (buildEmailFilters ⟨"hello", "body", none, some "crm", some "email",
          none, none, none, none, none, none, none, none⟩)
          (strategyServerF (buildEmailFilters ⟨"hello", "body", none, some "crm",
            some "email", none, none, none, none, none, none, none, none⟩)))).length :=
  have hmain := sendBulkEmail_queued_records
    ⟨"hello", "body", none, some "crm", some "email", none, none, none, none, none,
      none, none, none⟩ "c9" numRepr "2024-01-01T00:00:00" [sampleProfile "u1"]
    (by decide)
    (fun j => by
      apply getRow_none_of_all
      intro r hr
      rw [List.mem_singleton] at hr
      subst hr
      apply rowKeyIs_false_of_ne (sampleProfile "u1") ("EMAIL#" ++ numRepr j)
        "ANALYTICS" ("USER#" ++ "u1") "PROFILE" rfl rfl
      intro hc
      exact (by decide : ¬("ANALYTICS" = "PROFILE")) hc.2)
    (fun j k hjk => by
      have h1 := decode_encode j
      have h2 := decode_encode k
      rw [show encodeToken j = numRepr j from rfl, hjk,
        show numRepr k = encodeToken k from rfl, h2] at h1
      exact (Option.some.inj h1).symm)
    (fun r hr => by
      rw [List.mem_singleton] at hr
      subst hr
      decide)
  ⟨hmain.1, hmain.2.1⟩

theorem sendBulkEmail_over_page_cex :
    ((strategySrc ((List.range 51).map (fun i => sampleProfile (numRepr i)))
      (buildEmailFilters ⟨"s", "b", none, some "crm", some "email", none, none, none,
        none, none, none, none, none⟩)).filter
      (userGood (buildEmailFilters ⟨"s", "b", none, some "crm", some "email", none,
        none, none, none, none, none, none, none⟩)
        (strategyServerF (buildEmailFilters ⟨"s", "b", none, some "crm", some "email",
          none, none, none, none, none, none, none, none⟩)))).length = 51 ∧
    (sendBulkEmail ⟨"s", "b", none, some "crm", some "email", none, none, none, none,
      none, none, none, none⟩ "c9" numRepr "2024-01-01T00:00:00"
      ((List.range 51).map (fun i => sampleProfile (numRepr i)))).2.emailsQueued =
      50 := by
  constructor
  · decide
  · decide

theorem scan_fallback_residual_witness :
    availableFilters ({ city := some "Austin" } : Filters) = [] ∧
    chooseBestStrategy { city := some "Austin" } = Strategy.scan ∧
    ∀ r ∈ (filterUsers [createUserItem "u9" ⟨"Bo", "Xu", "5", "b@c.d", none, none,
        none, none, some "Denver", some "CO"⟩] { city := some "Austin" } 10 none).1,
      matchesAllFilters r { city := some "Austin" } = true :=
  ⟨by decide,
    (scan_fallback_residual [createUserItem "u9" ⟨"Bo", "Xu", "5", "b@c.d", none,
      none, none, none, some "Denver", some "CO"⟩] { city := some "Austin" } 10 none
      (by decide)).1,
    (scan_fallback_residual [createUserItem "u9" ⟨"Bo", "Xu", "5", "b@c.d", none,
      none, none, none, some "Denver", some "CO"⟩] { city := some "Austin" } 10 none
      (by decide)).2⟩
